import Mathlib

/-!
Shallow embedding of the `webcam-ts` camera-session core
(`src/core/stream.ts`, `src/core/capture.ts`, `src/core/webcam.ts`,
`src/utils/errors.ts`, `src/types/index.ts`), together with theorems that
settle the frozen claims about it.

Numbers: TS `number` values that participate in the claims are embedded as
`ℚ` (scale factors, zoom, crop coordinates) or `Nat`/`ℤ` (pixel sizes);
`Math.floor` is `Int.floor`.  JS falsiness of a numeric field is `= 0`,
of an optional field `Option.isNone`, of a string `= ""`.
Platform calls (`getUserMedia`, `track.applyConstraints`, `toBlob`,
`FileReader`) are oracles passed in as a `Platform` / `CanvasApi` record;
object identity of pooled buffers and bitmaps is modelled with an
allocation counter carried in the capture state.
-/

/-- `WebcamErrorCode` from `src/utils/errors.ts`. -/
inductive WebcamErrorCode where
  | PERMISSION_DENIED
  | DEVICE_NOT_FOUND
  | DEVICE_BUSY
  | OVERCONSTRAINED
  | CONSTRAINT_ERROR
  | STREAM_FAILED
  | STREAM_ERROR
  | CAPTURE_FAILED
  | INVALID_CONFIG
  | VIDEO_ELEMENT_NOT_SET
  | DEVICES_ERROR
  | UNKNOWN_ERROR
  deriving DecidableEq, Repr

/-- An error value thrown by the embedded code: either a `WebcamError`
(message + taxonomy code, optionally wrapping an `originalError`), or a
platform/JS error identified by its `name` property (`"NotAllowedError"`,
`"OverconstrainedError"`, `"TypeError"`, plain `"Error"`, ...). -/
inductive ThrownError where
  | webcamError (msg : String) (code : WebcamErrorCode)
  | webcamWrapped (msg : String) (code : WebcamErrorCode) (original : ThrownError)
  | jsError (name : String)
  deriving DecidableEq, Repr

/-- The `.name` property: `WebcamError` sets `this.name = "WebcamError"`;
a JS/platform error carries its own name. -/
def ThrownError.name : ThrownError → String
  | .webcamError _ _ => "WebcamError"
  | .webcamWrapped _ _ _ => "WebcamError"
  | .jsError n => n

/-- The taxonomy code carried by an error (`none` for a bare JS error). -/
def ThrownError.code : ThrownError → Option WebcamErrorCode
  | .webcamError _ c => some c
  | .webcamWrapped _ c _ => some c
  | .jsError _ => none

/-- `error instanceof WebcamError`. -/
def ThrownError.isWebcamError : ThrownError → Bool
  | .webcamError _ _ => true
  | .webcamWrapped _ _ _ => true
  | .jsError _ => false

/-- `Resolution` from `src/types/index.ts`: a labelled width×height pair. -/
structure Resolution where
  label : String
  width : Nat
  height : Nat
  deriving DecidableEq, Repr

/-- The `Resolution | Resolution[]` union shape of `preferredResolutions`. -/
inductive PreferredResolutions where
  | single (r : Resolution)
  | list (rs : List Resolution)
  deriving DecidableEq, Repr

/-- `Array.isArray(x) ? x : [x]`, the normalisation used by
`_buildConstraints` for validation. -/
def PreferredResolutions.toList : PreferredResolutions → List Resolution
  | .single r => [r]
  | .list rs => rs

/-- `Array.isArray(x) ? x[0] : x`: the element whose dimensions are put in
the constraints.  `none` when the source would index `[0]` of an empty
array (yielding `undefined`). -/
def PreferredResolutions.first? : PreferredResolutions → Option Resolution
  | .single r => some r
  | .list rs => rs.head?

/-- The slice of `MediaDeviceInfo` the core reads. -/
structure MediaDeviceInfo where
  deviceId : String
  deriving DecidableEq, Repr

/-- The slice of `MediaTrackSettings` the core reads from a video track. -/
structure MediaStreamTrack where
  id : Nat
  kind : String
  settingsWidth : Option Nat
  settingsHeight : Option Nat
  deriving DecidableEq, Repr

/-- A platform `MediaStream`: an identity plus its tracks. -/
structure MediaStream where
  id : Nat
  tracks : List MediaStreamTrack
  deriving DecidableEq, Repr

/-- `stream.getVideoTracks()`. -/
def MediaStream.getVideoTracks (s : MediaStream) : List MediaStreamTrack :=
  s.tracks.filter (fun t => t.kind == "video")

/-- A width/height entry of `MediaTrackConstraints`:
`{ exact: n }` or `{ ideal: n }`. -/
inductive ConstrainNat where
  | exact (n : Nat)
  | ideal (n : Nat)
  deriving DecidableEq, Repr

/-- The video member of `MediaStreamConstraints` as `_buildConstraints`
assembles it. -/
structure VideoTrackConstraints where
  deviceId : Option String := none
  width : Option ConstrainNat := none
  height : Option ConstrainNat := none
  deriving DecidableEq, Repr

/-- The argument handed to `navigator.mediaDevices.getUserMedia`. -/
structure MediaStreamConstraints where
  video : VideoTrackConstraints
  audio : Bool
  deriving DecidableEq, Repr

/-- One `MediaTrackConstraintSet` patch (`{torch?|zoom?|focusMode?}`). -/
structure MediaTrackConstraintSet where
  torch : Option Bool := none
  zoom : Option ℚ := none
  focusMode : Option String := none
  deriving DecidableEq, Repr

/-- `track.applyConstraints({ advanced: [constraints] })` receives this
wrapper. -/
structure MediaTrackConstraintsAdv where
  advanced : List MediaTrackConstraintSet
  deriving DecidableEq, Repr

/-- The value `startStream` resolves with: `{ stream, usedResolution }`.
In the snapshot under verification, `Webcam.start` assigns this whole
object (not its `.stream` member) to `state.activeStream` and to the
video element's `srcObject`. -/
structure StartStreamResult where
  stream : MediaStream
  usedResolution : Option Resolution
  deriving DecidableEq, Repr

/-- The host-provided `HTMLVideoElement` sink: the slots of it the core
reads or writes.  `srcObject` holds whatever runtime value `Webcam.start`
assigns to it, which in this snapshot is the whole `startStream` result
object. -/
structure VideoElement where
  srcObject : Option StartStreamResult := none
  transform : String := ""
  readyState : Nat := 0
  videoWidth : Nat := 0
  videoHeight : Nat := 0
  deriving DecidableEq, Repr

/-- `WebcamConfiguration` (`src/types/index.ts`), restricted to the fields
the embedded operations read.  Optional fields are `Option` so that the
JS truthiness checks and the `{...old, ...new}` merge can be stated; the
callback fields are not modelled. -/
structure WebcamConfiguration where
  deviceInfo : Option MediaDeviceInfo := none
  preferredResolutions : Option PreferredResolutions := none
  videoElement : Option VideoElement := none
  enableAudio : Option Bool := none
  enableMirror : Option Bool := none
  deriving DecidableEq, Repr

/-- `{...old, ...incoming}`: a field of the incoming configuration
overrides the stored one when present. -/
def WebcamConfiguration.merge (old incoming : WebcamConfiguration) :
    WebcamConfiguration where
  deviceInfo := incoming.deviceInfo <|> old.deviceInfo
  preferredResolutions := incoming.preferredResolutions <|> old.preferredResolutions
  videoElement := incoming.videoElement <|> old.videoElement
  enableAudio := incoming.enableAudio <|> old.enableAudio
  enableMirror := incoming.enableMirror <|> old.enableMirror

/-- The platform media surface the stream module drives.  `getUserMedia`
and `applyTrackConstraints` either succeed or fail with the `name` of the
thrown `DOMException`. -/
structure Platform where
  getUserMedia : MediaStreamConstraints → Except String MediaStream
  applyTrackConstraints :
    MediaStreamTrack → MediaTrackConstraintsAdv → Except String Unit

/-- `const DEFAULT_RESOLUTION = { width: 1280, height: 720 }`. -/
def DEFAULT_RESOLUTION : Nat × Nat := (1280, 720)

/-- The `INVALID_CONFIG` error thrown by `_buildConstraints` for a
resolution with a falsy width or height. -/
def invalidResolutionError : ThrownError :=
  .webcamError "Invalid resolution: width and height must be specified"
    .INVALID_CONFIG

/-- The `for (const res of resolutions)` validation loop of
`_buildConstraints`: throws `INVALID_CONFIG` at the first resolution with
a falsy (zero/missing) width or height. -/
def Stream.validateResolutions : List Resolution → Except ThrownError Unit
  | [] => .ok ()
  | res :: rest =>
    if res.width = 0 ∨ res.height = 0 then .error invalidResolutionError
    else Stream.validateResolutions rest

/-- `const deviceId = config.deviceInfo?.deviceId` followed by the
truthiness check `if (deviceId)`: an absent device info or an empty id
yields no device constraint. -/
def Stream.configDeviceId (config : WebcamConfiguration) : Option String :=
  match config.deviceInfo with
  | some d => if d.deviceId = "" then none else some d.deviceId
  | none => none

/-- `Stream._buildConstraints` (`src/core/stream.ts`): validates any
specified resolutions, adds `deviceId: { exact: ... }` when a truthy
device id is configured, then either the `exact` dimensions of the
(first) specified resolution or the `ideal` 1280×720 default.  The
`.jsError "TypeError"` branch is the source reading `.width` of
`undefined` when handed an empty resolution array. -/
def Stream.buildConstraints (config : WebcamConfiguration) :
    Except ThrownError MediaStreamConstraints :=
  let validated : Except ThrownError Unit :=
    match config.preferredResolutions with
    | some pr => Stream.validateResolutions pr.toList
    | none => .ok ()
  match validated with
  | .error e => .error e
  | .ok _ =>
    match config.preferredResolutions with
    | some pr =>
      match pr.first? with
      | some res =>
        .ok { video := { deviceId := Stream.configDeviceId config,
                         width := some (.exact res.width),
                         height := some (.exact res.height) },
              audio := config.enableAudio.getD false }
      | none => .error (.jsError "TypeError")
    | none =>
      .ok { video := { deviceId := Stream.configDeviceId config,
                       width := some (.ideal DEFAULT_RESOLUTION.1),
                       height := some (.ideal DEFAULT_RESOLUTION.2) },
            audio := config.enableAudio.getD false }

/-- `Stream._handleStartError`: translates the platform error name to the
taxonomy, with a generic `UNKNOWN_ERROR` fallback, always wrapping the
original error. -/
def Stream.handleStartError (e : ThrownError) : ThrownError :=
  if e.name = "NotAllowedError" then
    .webcamWrapped "Camera access denied" .PERMISSION_DENIED e
  else if e.name = "NotFoundError" then
    .webcamWrapped "Camera device not found" .DEVICE_NOT_FOUND e
  else if e.name = "NotReadableError" then
    .webcamWrapped "Camera is already in use" .DEVICE_BUSY e
  else if e.name = "OverconstrainedError" then
    .webcamWrapped "Camera constraints not satisfied" .OVERCONSTRAINED e
  else
    .webcamWrapped "Failed to start camera" .UNKNOWN_ERROR e

/-- One iteration body of the multi-resolution loop: build constraints for
the candidate (config spread with this single resolution) and call
`getUserMedia`. -/
def Stream.attempt (p : Platform) (config : WebcamConfiguration)
    (r : Resolution) : Except ThrownError MediaStream :=
  match Stream.buildConstraints
      { config with preferredResolutions := some (.single r) } with
  | .error e => .error e
  | .ok constraints =>
    match p.getUserMedia constraints with
    | .ok stream => .ok stream
    | .error n => .error (.jsError n)

/-- The `getUserMedia` calls one candidate contributes: its built
constraints, or nothing when constraint building already throws. -/
def Stream.attemptTrace (config : WebcamConfiguration) (r : Resolution) :
    List MediaStreamConstraints :=
  match Stream.buildConstraints
      { config with preferredResolutions := some (.single r) } with
  | .error _ => []
  | .ok c => [c]

/-- The `for (const resolution of config.preferredResolutions)` loop of
`startStream`, threading `lastError`.  The second component is the list
of constraint objects actually passed to `getUserMedia`, in call order
(a candidate whose constraint building throws makes no platform call). -/
def Stream.startLoop (p : Platform) (config : WebcamConfiguration) :
    List Resolution → Option ThrownError →
    Except ThrownError (MediaStream × Resolution) × List MediaStreamConstraints
  | [], lastError =>
    (.error (lastError.getD (.jsError "Error")), [])
  | resolution :: rest, lastError =>
    match Stream.buildConstraints
        { config with preferredResolutions := some (.single resolution) } with
    | .error e => Stream.startLoop p config rest (some e)
    | .ok constraints =>
      match p.getUserMedia constraints with
      | .ok stream => (.ok (stream, resolution), [constraints])
      | .error n =>
        let tail := Stream.startLoop p config rest (some (.jsError n))
        (tail.1, constraints :: tail.2)

/-- The stream module's private state: `activeStream`. -/
structure StreamState where
  activeStream : Option MediaStream := none
  deriving DecidableEq, Repr

/-- `Stream.startStream` (`src/core/stream.ts`).  Returns the result (or
the error mapped by `_handleStartError`), the updated module state, and
the trace of `getUserMedia` calls made.  On failure the held
`activeStream` is untouched. -/
def Stream.startStream (p : Platform) (st : StreamState)
    (config : WebcamConfiguration) :
    Except ThrownError (StreamState × StartStreamResult) ×
      List MediaStreamConstraints :=
  match config.preferredResolutions with
  | some (.list rs) =>
    let loop := Stream.startLoop p config rs none
    match loop.1 with
    | .ok (stream, resolution) =>
      (.ok ({ activeStream := some stream },
            { stream := stream, usedResolution := some resolution }), loop.2)
    | .error e => (.error (Stream.handleStartError e), loop.2)
  | _ =>
    match Stream.buildConstraints config with
    | .error e => (.error (Stream.handleStartError e), [])
    | .ok constraints =>
      match p.getUserMedia constraints with
      | .ok stream =>
        let usedResolution : Option Resolution :=
          match config.preferredResolutions with
          | some (.single r) => some r
          | _ => none
        (.ok ({ activeStream := some stream },
              { stream := stream, usedResolution := usedResolution }),
         [constraints])
      | .error n =>
        (.error (Stream.handleStartError (.jsError n)), [constraints])

/-- `Stream.stopStream`: stops every track of the held stream and clears
the reference; the second component lists the ids of the tracks whose
`stop()` was called. -/
def Stream.stopStream (st : StreamState) : StreamState × List Nat :=
  match st.activeStream with
  | none => (st, [])
  | some s => ({ activeStream := none }, s.tracks.map (fun t => t.id))

/-- `Stream.applyConstraints` (`src/core/stream.ts`): `STREAM_ERROR`
without an active stream or video track; a platform
`OverconstrainedError` becomes `CONSTRAINT_ERROR`, any other platform
failure `STREAM_ERROR`, both wrapping the original error. -/
def Stream.applyConstraints (p : Platform) (st : StreamState)
    (constraints : MediaTrackConstraintSet) : Except ThrownError Unit :=
  match st.activeStream with
  | none =>
    .error (.webcamError "No active stream to apply constraints" .STREAM_ERROR)
  | some s =>
    match s.getVideoTracks.head? with
    | none =>
      .error (.webcamError "No video track found in active stream" .STREAM_ERROR)
    | some track =>
      match p.applyTrackConstraints track { advanced := [constraints] } with
      | .ok _ => .ok ()
      | .error n =>
        if n = "OverconstrainedError" then
          .error (.webcamWrapped "Cannot apply constraints: not supported by device"
            .CONSTRAINT_ERROR (.jsError n))
        else
          .error (.webcamWrapped "Failed to apply constraints" .STREAM_ERROR
            (.jsError n))

/-- `Math.max(0.1, Math.min(2, options.scale))` with default `1.0` when
the option is `undefined`. -/
def clampScale : Option ℚ → ℚ
  | some v => max (1/10) (min 2 v)
  | none => 1

/-- The crop region of `BaseCaptureOptions` (`src/types/index.ts`). -/
structure CropRegion where
  x : ℚ
  y : ℚ
  width : ℚ
  height : ℚ
  deriving DecidableEq, Repr

/-- `const sourceWidth = crop ? crop.width : videoElement.videoWidth`
(and the same for the height), shared by all three capture methods. -/
def captureSourceDims (video : VideoElement) (crop : Option CropRegion) : ℚ × ℚ :=
  match crop with
  | some c => (c.width, c.height)
  | none => ((video.videoWidth : ℚ), (video.videoHeight : ℚ))

/-- A pooled `ImageData` object: its allocation identity plus the
dimensions it was created with.  Two results hold the same buffer object
by reference exactly when their `allocId` agree. -/
structure ImageDataRef where
  allocId : Nat
  width : ℤ
  height : ℤ
  deriving DecidableEq, Repr

/-- An offscreen `HTMLCanvasElement`: only its width/height are read. -/
structure Canvas where
  width : ℤ
  height : ℤ
  deriving DecidableEq, Repr

/-- An `ImageBitmap` result object, by allocation identity. -/
structure ImageBitmap where
  allocId : Nat
  width : ℤ
  height : ℤ
  deriving DecidableEq, Repr

/-- The private fields of the `Capture` class (`src/core/capture.ts`).
`contextPresent`/`mirrorContextPresent` model whether the corresponding
2d context reference is non-null; `nextAllocId` is the allocation counter
that models object identity of pooled buffers and created bitmaps. -/
structure CaptureState where
  canvas : Option Canvas
  contextPresent : Bool
  reusableImageData : Option ImageDataRef
  cachedWidth : ℤ
  cachedHeight : ℤ
  cachedScale : ℚ
  cachedMirror : Bool
  mirrorCanvas : Option Canvas
  mirrorContextPresent : Bool
  nextAllocId : Nat
  deriving DecidableEq, Repr

/-- The `Capture` constructor: pre-creates the main canvas (DOM default
size 300×150) and its 2d context; caches start empty, the mirror canvas
is lazily initialised later. -/
def Capture.init : CaptureState where
  canvas := some { width := 300, height := 150 }
  contextPresent := true
  reusableImageData := none
  cachedWidth := 0
  cachedHeight := 0
  cachedScale := 1
  cachedMirror := false
  mirrorCanvas := none
  mirrorContextPresent := false
  nextAllocId := 0

/-- `Capture.resizeCanvas`: early-returns when the canvas was disposed;
otherwise resizes it, records the new cached dimensions/scale, and drops
the pooled `ImageData` so it is recreated at the new size. -/
def Capture.resizeCanvas (cs : CaptureState) (width height : ℤ) (scale : ℚ) :
    CaptureState :=
  match cs.canvas with
  | none => cs
  | some _ =>
    { cs with
      canvas := some { width := width, height := height }
      cachedWidth := width
      cachedHeight := height
      cachedScale := scale
      reusableImageData := none }

/-- Options of `captureImageData` (scale/mirror/crop). -/
structure CaptureImageDataOptions where
  scale : Option ℚ := none
  mirror : Option Bool := none
  crop : Option CropRegion := none
  deriving DecidableEq, Repr

/-- Result of `captureImageData` (the `timestamp` field is not modelled). -/
structure CaptureImageDataResult where
  imageData : ImageDataRef
  width : ℤ
  height : ℤ
  deriving DecidableEq, Repr

/-- The `if (mirror !== this.cachedMirror) ctx.setTransform(...)` block
shared by `captureImageData` and `captureImage`.  It runs outside the
draw try-block, so a disposed (null) context makes the `setTransform`
call throw a raw TypeError when the flag actually changed. -/
def Capture.mirrorTransformStep (cs : CaptureState) (mirror : Bool) :
    Except ThrownError CaptureState :=
  if mirror = cs.cachedMirror then .ok cs
  else if cs.contextPresent then .ok { cs with cachedMirror := mirror }
  else .error (.jsError "TypeError")

/-- The draw + pooled `getImageData` tail of `captureImageData`: a null
context makes `drawImage` throw inside the try (`CAPTURE_FAILED`);
otherwise the pooled `ImageData` object is returned, allocated only when
absent.  Platform draw/read calls are modelled as succeeding whenever
the context exists. -/
def Capture.drawAndReadStep (cs : CaptureState) (width height : ℤ) :
    Except ThrownError (CaptureState × CaptureImageDataResult) :=
  if cs.contextPresent then
    match cs.reusableImageData with
    | none =>
      let img : ImageDataRef :=
        { allocId := cs.nextAllocId, width := width, height := height }
      .ok ({ cs with reusableImageData := some img,
                     nextAllocId := cs.nextAllocId + 1 },
           { imageData := img, width := width, height := height })
    | some img =>
      .ok (cs, { imageData := img, width := width, height := height })
  else
    .error (.webcamWrapped "Failed to draw video to canvas" .CAPTURE_FAILED
      (.jsError "TypeError"))

/-- `Capture.captureImageData` (`src/core/capture.ts`): readiness check,
scale clamping, `floor(sourceDim × scale)` output dimensions, resize of
the pooled canvas only when dimensions or scale changed, then the mirror
transform and draw/read steps. -/
def Capture.captureImageData (cs : CaptureState) (video : VideoElement)
    (options : CaptureImageDataOptions) :
    Except ThrownError (CaptureState × CaptureImageDataResult) :=
  if video.readyState < 2 then
    .error (.webcamError "Video element is not ready for capture"
      .VIDEO_ELEMENT_NOT_SET)
  else
    let scale := clampScale options.scale
    let mirror := options.mirror.getD false
    let src := captureSourceDims video options.crop
    let width : ℤ := ⌊src.1 * scale⌋
    let height : ℤ := ⌊src.2 * scale⌋
    let cs :=
      if cs.cachedWidth ≠ width ∨ cs.cachedHeight ≠ height ∨ cs.cachedScale ≠ scale
      then Capture.resizeCanvas cs width height scale
      else cs
    match Capture.mirrorTransformStep cs mirror with
    | .error e => .error e
    | .ok cs => Capture.drawAndReadStep cs width height

/-- An encoded image blob (its payload is not modelled). -/
structure Blob where
  mimeType : String
  deriving DecidableEq, Repr

/-- `URL.createObjectURL`: an opaque revocable handle for a blob. -/
def createObjectUrl (blob : Blob) : String :=
  "blob:" ++ blob.mimeType

/-- The canvas encoding surface used by `captureImage`:
`canvas.toBlob(imageType, quality)` and `FileReader.readAsDataURL`,
each either succeeding or failing. -/
structure CanvasApi where
  toBlob : Canvas → String → ℚ → Option Blob
  readAsDataUrl : Blob → Option String

/-- Options of `captureImage`. -/
structure CaptureImageOptions where
  imageType : Option String := none
  quality : Option ℚ := none
  scale : Option ℚ := none
  mirror : Option Bool := none
  includeBase64 : Option Bool := none
  crop : Option CropRegion := none
  deriving Repr

/-- Result of `captureImage` (the `timestamp` field is not modelled). -/
structure CaptureImageResult where
  blob : Blob
  url : String
  base64 : Option String
  width : ℤ
  height : ℤ
  mimeType : String
  deriving DecidableEq, Repr

/-- The draw + `toBlob` + object-URL + optional base64 tail of
`captureImage`: a null context makes `drawImage` throw inside the try
(`CAPTURE_FAILED`); blob encoding failure is `CAPTURE_FAILED`; a base64
encoding failure revokes the URL and throws `CAPTURE_FAILED`. -/
def Capture.drawAndEncodeStep (api : CanvasApi) (cs : CaptureState)
    (imageType : String) (quality : ℚ) (includeBase64 : Bool)
    (width height : ℤ) :
    Except ThrownError (CaptureState × CaptureImageResult) :=
  if cs.contextPresent then
    match cs.canvas with
    | none =>
      .error (.webcamWrapped "Failed to convert canvas to blob" .CAPTURE_FAILED
        (.jsError "Error"))
    | some canvas =>
      match api.toBlob canvas imageType quality with
      | none =>
        .error (.webcamWrapped "Failed to convert canvas to blob" .CAPTURE_FAILED
          (.jsError "Error"))
      | some blob =>
        let url := createObjectUrl blob
        if includeBase64 then
          match api.readAsDataUrl blob with
          | none =>
            .error (.webcamWrapped "Failed to convert blob to base64"
              .CAPTURE_FAILED (.jsError "Error"))
          | some b64 =>
            .ok (cs, { blob := blob, url := url, base64 := some b64,
                       width := width, height := height,
                       mimeType := imageType })
        else
          .ok (cs, { blob := blob, url := url, base64 := none,
                     width := width, height := height,
                     mimeType := imageType })
  else
    .error (.webcamWrapped "Failed to draw video to canvas" .CAPTURE_FAILED
      (.jsError "TypeError"))

/-- `Capture.captureImage` (`src/core/capture.ts`): same readiness /
clamping / dimension / resize / mirror steps over the shared pooled
canvas as `captureImageData`, then the draw/encode tail. -/
def Capture.captureImage (api : CanvasApi) (cs : CaptureState)
    (video : VideoElement) (options : CaptureImageOptions) :
    Except ThrownError (CaptureState × CaptureImageResult) :=
  if video.readyState < 2 then
    .error (.webcamError "Video element is not ready for capture"
      .VIDEO_ELEMENT_NOT_SET)
  else
    let imageType :=
      match options.imageType with
      | some t => if t = "" then "image/jpeg" else t
      | none => "image/jpeg"
    let quality :=
      match options.quality with
      | some q => max 0 (min 1 q)
      | none => 92/100
    let scale := clampScale options.scale
    let mirror := options.mirror.getD false
    let includeBase64 := options.includeBase64.getD true
    let src := captureSourceDims video options.crop
    let width : ℤ := ⌊src.1 * scale⌋
    let height : ℤ := ⌊src.2 * scale⌋
    let cs :=
      if cs.cachedWidth ≠ width ∨ cs.cachedHeight ≠ height ∨ cs.cachedScale ≠ scale
      then Capture.resizeCanvas cs width height scale
      else cs
    match Capture.mirrorTransformStep cs mirror with
    | .error e => .error e
    | .ok cs =>
      Capture.drawAndEncodeStep api cs imageType quality includeBase64 width height

/-- Options of `captureImageBitmap`. -/
structure CaptureImageBitmapOptions where
  scale : Option ℚ := none
  mirror : Option Bool := none
  crop : Option CropRegion := none
  deriving DecidableEq, Repr

/-- Result of `captureImageBitmap` (the `timestamp` field is not
modelled). -/
structure CaptureImageBitmapResult where
  imageBitmap : ImageBitmap
  width : ℤ
  height : ℤ
  deriving DecidableEq, Repr

/-- The lazy-init `document.createElement("canvas")` of the mirror path
of `captureImageBitmap`: creates the dedicated mirror canvas (DOM
default size) and its context when absent — also when it was disposed. -/
def Capture.ensureMirrorCanvas (cs : CaptureState) : CaptureState :=
  match cs.mirrorCanvas with
  | none =>
    { cs with mirrorCanvas := some { width := 300, height := 150 },
              mirrorContextPresent := true }
  | some _ => cs

/-- The mirror (slow) path of `captureImageBitmap` after the lazy init:
resize the pooled mirror canvas only on dimension change, draw with the
flip transform, and create the bitmap from the canvas (modelled as a
fresh allocation).  A missing mirror context fails inside the try as
`CAPTURE_FAILED`; so does the platform `createImageBitmap(mirrorCanvas)`
call itself, which rejects when the (just-resized) canvas has a
non-positive pixel size. -/
def Capture.mirrorBitmapStep (cs : CaptureState)
    (targetWidth targetHeight : ℤ) :
    Except ThrownError (CaptureState × CaptureImageBitmapResult) :=
  match cs.mirrorCanvas with
  | none =>
    .error (.webcamWrapped "Failed to create ImageBitmap" .CAPTURE_FAILED
      (.jsError "TypeError"))
  | some mc =>
    let cs :=
      if mc.width ≠ targetWidth ∨ mc.height ≠ targetHeight then
        { cs with mirrorCanvas := some ⟨targetWidth, targetHeight⟩ }
      else cs
    if cs.mirrorContextPresent then
      if targetWidth ≤ 0 ∨ targetHeight ≤ 0 then
        .error (.webcamWrapped "Failed to create ImageBitmap" .CAPTURE_FAILED
          (.jsError "InvalidStateError"))
      else
        let bitmap : ImageBitmap :=
          { allocId := cs.nextAllocId, width := targetWidth,
            height := targetHeight }
        .ok ({ cs with nextAllocId := cs.nextAllocId + 1 },
             { imageBitmap := bitmap, width := targetWidth,
               height := targetHeight })
    else
      .error (.webcamWrapped "Failed to create ImageBitmap" .CAPTURE_FAILED
        (.jsError "TypeError"))

/-- `Capture.captureImageBitmap` (`src/core/capture.ts`): without
mirroring, `createImageBitmap` straight from the video with native
resize (no canvas is touched, modelled as a fresh allocation); with
mirroring, the lazily (re)created, dimension-cached mirror canvas is
drawn through and the bitmap created from it.  The platform
`createImageBitmap` call is fallible: it rejects for a non-positive
computed resize dimension (zero → `InvalidStateError`, negative →
`TypeError` from the `[EnforceRange] unsigned long` conversion), and
the surrounding `try`/`catch` wraps any such failure as
`CAPTURE_FAILED`. -/
def Capture.captureImageBitmap (cs : CaptureState) (video : VideoElement)
    (options : CaptureImageBitmapOptions) :
    Except ThrownError (CaptureState × CaptureImageBitmapResult) :=
  if video.readyState < 2 then
    .error (.webcamError "Video element is not ready for capture"
      .VIDEO_ELEMENT_NOT_SET)
  else
    let scale := clampScale options.scale
    let mirror := options.mirror.getD false
    let src := captureSourceDims video options.crop
    let targetWidth : ℤ := ⌊src.1 * scale⌋
    let targetHeight : ℤ := ⌊src.2 * scale⌋
    if mirror = false then
      if targetWidth ≤ 0 ∨ targetHeight ≤ 0 then
        .error (.webcamWrapped "Failed to create ImageBitmap" .CAPTURE_FAILED
          (.jsError (if targetWidth < 0 ∨ targetHeight < 0 then "TypeError"
                     else "InvalidStateError")))
      else
        let bitmap : ImageBitmap :=
          { allocId := cs.nextAllocId, width := targetWidth, height := targetHeight }
        .ok ({ cs with nextAllocId := cs.nextAllocId + 1 },
             { imageBitmap := bitmap, width := targetWidth, height := targetHeight })
    else
      Capture.mirrorBitmapStep (Capture.ensureMirrorCanvas cs)
        targetWidth targetHeight

/-- `Capture.dispose`: zeroes and releases both canvases and their
contexts, drops the pooled buffer and the cached dimensions.
(`cachedScale` and `cachedMirror` are left as they are, as in the
source.) -/
def Capture.dispose (cs : CaptureState) : CaptureState :=
  { cs with
    canvas := none
    contextPresent := false
    mirrorCanvas := none
    mirrorContextPresent := false
    reusableImageData := none
    cachedWidth := 0
    cachedHeight := 0 }

/-- The `status` member of the session state. -/
inductive WebcamStatus where
  | idle
  | initializing
  | ready
  | errored
  deriving DecidableEq, Repr

/-- `WebcamStateInternal` (`src/types/index.ts`), restricted to the fields
the embedded operations touch.  `activeStream` holds the runtime value
`Webcam.start` assigns, i.e. the whole `startStream` result object;
`activeResolution` is declared by the types for the winning resolution
but is never written by this snapshot's `Webcam`. -/
structure WebcamStateInternal where
  status : WebcamStatus := .idle
  activeStream : Option StartStreamResult := none
  error : Option ThrownError := none
  zoomLevel : Option ℚ := none
  focusMode : Option String := none
  torchEnabled : Option Bool := none
  activeResolution : Option Resolution := none
  deriving DecidableEq, Repr

/-- One `Webcam` instance (`src/core/webcam.ts`): its state object, stored
configuration, adopted video element, and the owned stream/capture module
states, plus the device-change subscription flag. -/
structure WebcamSession where
  state : WebcamStateInternal := {}
  config : Option WebcamConfiguration := none
  videoElement : Option VideoElement := none
  streamSt : StreamState := {}
  captureSt : CaptureState := Capture.init
  deviceChangeListenerActive : Bool := true
  deriving DecidableEq, Repr

/-- The `Webcam` constructor: stores the configuration and adopts its
video element when one is given, registers the device-change listener. -/
def Webcam.init (config : Option WebcamConfiguration) : WebcamSession where
  state := {}
  config := config
  videoElement := config.bind (fun c => c.videoElement)
  streamSt := {}
  captureSt := Capture.init
  deviceChangeListenerActive := true

/-- `Webcam.setMirror`: sets the CSS transform on the video element. -/
def Webcam.setMirror (w : WebcamSession) (mirror : Bool) : WebcamSession :=
  match w.videoElement with
  | some ve =>
    { w with videoElement :=
        (some { ve with transform := if mirror then "scaleX(-1)" else "" }) }
  | none => w

/-- The opening lines of `Webcam.start`: `{...this.config, ...config}`
merging of an incoming configuration over the stored one, plus adoption
of a provided video element. -/
def Webcam.mergeConfigStep (w : WebcamSession)
    (config : Option WebcamConfiguration) : WebcamSession :=
  match config with
  | some c =>
    let merged :=
      match w.config with
      | some old => WebcamConfiguration.merge old c
      | none => c
    let ve :=
      match c.videoElement with
      | some v => some v
      | none => w.videoElement
    { w with config := some merged, videoElement := ve }
  | none => w

/-- `Webcam.start` (`src/core/webcam.ts`): merges the incoming
configuration over the stored one (adopting its video element), requires
a configuration, transitions to `initializing`, delegates to
`Stream.startStream`, stores the resolved value in `state.activeStream`,
assigns it to the sink's `srcObject`, applies the mirror transform when
configured, transitions to `ready`; on any failure records the typed
error, transitions to the error status and rethrows.  Returns the thrown
or unit result, the mutated session, and the `getUserMedia` trace. -/
def Webcam.start (p : Platform) (w : WebcamSession)
    (config : Option WebcamConfiguration) :
    Except ThrownError Unit × WebcamSession × List MediaStreamConstraints :=
  let w := Webcam.mergeConfigStep w config
  match w.config with
  | none =>
    (.error (.webcamError "Configuration is required" .INVALID_CONFIG), w, [])
  | some cfg =>
    let w := { w with state :=
      { w.state with status := .initializing, error := none } }
    let started := Stream.startStream p w.streamSt cfg
    match started.1 with
    | .ok (streamSt, result) =>
      let w := { w with
        streamSt := streamSt,
        state := { w.state with activeStream := some result } }
      let w :=
        match w.videoElement with
        | some ve =>
          let w := { w with videoElement := some { ve with srcObject := some result } }
          if cfg.enableMirror.getD false then Webcam.setMirror w true else w
        | none => w
      let w := { w with state :=
        { w.state with status := .ready, error := none } }
      (.ok (), w, started.2)
    | .error e =>
      let e' :=
        if e.isWebcamError then e
        else .webcamWrapped "Start failed" .UNKNOWN_ERROR e
      let w := { w with state :=
        { w.state with status := .errored, error := some e' } }
      (.error e', w, started.2)

/-- `Webcam.stop` (`src/core/webcam.ts`): stops the stream module's
tracks, clears `state.activeStream`, detaches the sink, transitions to
`idle`.  The second component lists the ids of the tracks stopped. -/
def Webcam.stop (w : WebcamSession) : WebcamSession × List Nat :=
  let stopped := Stream.stopStream w.streamSt
  let ve :=
    match w.videoElement with
    | some v => some { v with srcObject := (none : Option StartStreamResult) }
    | none => none
  ({ w with
      streamSt := stopped.1,
      videoElement := ve,
      state := ({ w.state with activeStream := none, status := .idle,
                               error := none }) },
   stopped.2)

/-- `Webcam.getCurrentResolution` (`src/core/webcam.ts`): `null` without
an active stream; otherwise the source calls
`this.state.activeStream.getVideoTracks()` — but the stored value is the
whole `startStream` result object, which has no such method, so the call
fails with a TypeError at run time.  (Had the `MediaStream` been stored
as the declared types intend, the remainder would rebuild the label as
`"${width}x${height}"` from the track settings.) -/
def Webcam.getCurrentResolution (w : WebcamSession) :
    Except ThrownError (Option Resolution) :=
  match w.state.activeStream with
  | none => .ok none
  | some _ => .error (.jsError "TypeError")

/-- The label the source would rebuild from track settings in
`getCurrentResolution` (`"${width}x${height}"` with `|| 0` defaults),
used to state what the remainder of that method computes. -/
def settingsLabel (t : MediaStreamTrack) : String :=
  toString (t.settingsWidth.getD 0) ++ "x" ++ toString (t.settingsHeight.getD 0)

/-- `Webcam.setZoom` (`src/core/webcam.ts`): rejects `zoom < 1` with
`INVALID_CONFIG` before any constraint call; otherwise delegates to
`Stream.applyConstraints` and on success records `state.zoomLevel`.  The
`Nat` component counts the `Stream.applyConstraints` invocations made. -/
def Webcam.setZoom (p : Platform) (w : WebcamSession) (zoom : ℚ) :
    Except ThrownError Unit × WebcamSession × Nat :=
  if zoom < 1 then
    (.error (.webcamError "Zoom level must be greater than or equal to 1"
      .INVALID_CONFIG), w, 0)
  else
    match Stream.applyConstraints p w.streamSt { zoom := some zoom } with
    | .ok _ =>
      (.ok (), { w with state := { w.state with zoomLevel := some zoom } }, 1)
    | .error e =>
      let e' :=
        if e.isWebcamError then e
        else .webcamWrapped "Failed to set zoom" .STREAM_ERROR e
      (.error e', w, 1)

/-- `Webcam.dispose` (`src/core/webcam.ts`): stops the session, disposes
the capture engine, removes the device-change listener.  The second
component lists the tracks stopped by the inner `stop()`. -/
def Webcam.dispose (w : WebcamSession) : WebcamSession × List Nat :=
  let stopped := Webcam.stop w
  ({ stopped.1 with
      captureSt := Capture.dispose stopped.1.captureSt,
      deviceChangeListenerActive := false },
   stopped.2)

/-- Whether an embedded operation returned normally (did not throw). -/
def runSucceeds {α : Type} : Except ThrownError α → Bool
  | .ok _ => true
  | .error _ => false

/-! ### Concrete fixtures used by witnesses and counterexamples -/

/-- A camera video track whose settings report 1280×720. -/
def demoTrack : MediaStreamTrack :=
  { id := 1, kind := "video", settingsWidth := some 1280, settingsHeight := some 720 }

/-- A platform stream holding the single demo video track. -/
def demoStream : MediaStream := { id := 10, tracks := [demoTrack] }

/-- The `{ stream, usedResolution }` value produced by a successful demo
acquisition of the HD candidate. -/
def demoAttached : StartStreamResult :=
  { stream := demoStream, usedResolution := some ⟨"HD", 1280, 720⟩ }

/-- A sink video element that has decoded frames at 1280×720. -/
def demoVideo : VideoElement :=
  { srcObject := none, transform := "", readyState := 4,
    videoWidth := 1280, videoHeight := 720 }

/-- A deterministic platform that satisfies exactly the constraint
`width: { exact: 1280 }` (every other acquisition is overconstrained)
and accepts every live-constraint patch. -/
def pDemo : Platform where
  getUserMedia := fun c =>
    if c.video.width = some (.exact 1280) then .ok demoStream
    else .error "OverconstrainedError"
  applyTrackConstraints := fun _ _ => .ok ()

/-- A platform whose live-constraint call always throws
`OverconstrainedError`. -/
def pOverconstrained : Platform where
  getUserMedia := fun _ => .error "OverconstrainedError"
  applyTrackConstraints := fun _ _ => .error "OverconstrainedError"

/-- A canvas encoding surface that always succeeds. -/
def apiDemo : CanvasApi where
  toBlob := fun _ imageType _ => some { mimeType := imageType }
  readAsDataUrl := fun _ => some "data:demo"

/-- The configuration of the claimed example: request
`[{label:"S720",720,720},{label:"HD",1280,720}]` on a platform that can
only satisfy 1280×720. -/
def cfgC2 : WebcamConfiguration :=
  { preferredResolutions := some (.list [⟨"S720", 720, 720⟩, ⟨"HD", 1280, 720⟩]),
    videoElement := some demoVideo }

/-- A single-resolution configuration the demo platform can satisfy. -/
def cfgSingleHD : WebcamConfiguration :=
  { preferredResolutions := some (.single ⟨"HD", 1280, 720⟩) }

/-- A single-resolution configuration the demo platform cannot satisfy. -/
def cfgSingleFHD : WebcamConfiguration :=
  { preferredResolutions := some (.single ⟨"FHD", 1920, 1080⟩) }

/-- The session after a successful `start` with `cfgC2` on `pDemo`. -/
def wStarted : WebcamSession :=
  (Webcam.start pDemo (Webcam.init none) (some cfgC2)).2.1

/-! ### Loop lemmas for multi-resolution acquisition -/

/-- A candidate whose attempt succeeds short-circuits the loop: the
result is its stream with the candidate itself, and the trace is exactly
this candidate's `getUserMedia` call. -/
theorem Stream.startLoop_cons_ok {p : Platform} {config : WebcamConfiguration}
    {r : Resolution} {s : MediaStream} (h : Stream.attempt p config r = .ok s)
    (rest : List Resolution) (le : Option ThrownError) :
    Stream.startLoop p config (r :: rest) le =
      (.ok (s, r), Stream.attemptTrace config r) := by
  cases hb : Stream.buildConstraints
      { config with preferredResolutions := some (.single r) } with
  | error e => simp only [Stream.attempt, hb] at h; cases h
  | ok c =>
    simp only [Stream.attempt, hb] at h
    cases hg : p.getUserMedia c with
    | ok s' =>
      rw [hg] at h
      simp only [Except.ok.injEq] at h
      subst h
      simp [Stream.startLoop, Stream.attemptTrace, hb, hg]
    | error n => simp only [hg] at h; cases h

/-- A candidate whose attempt fails is swallowed: the loop continues with
the rest, its error becoming the new `lastError`, and its trace
contribution prefixed. -/
theorem Stream.startLoop_cons_err {p : Platform} {config : WebcamConfiguration}
    {r : Resolution} {e : ThrownError} (h : Stream.attempt p config r = .error e)
    (rest : List Resolution) (le : Option ThrownError) :
    Stream.startLoop p config (r :: rest) le =
      ((Stream.startLoop p config rest (some e)).1,
       Stream.attemptTrace config r ++ (Stream.startLoop p config rest (some e)).2) := by
  cases hb : Stream.buildConstraints
      { config with preferredResolutions := some (.single r) } with
  | error e' =>
    simp only [Stream.attempt, hb, Except.error.injEq] at h
    subst h
    simp [Stream.startLoop, Stream.attemptTrace, hb]
  | ok c =>
    simp only [Stream.attempt, hb] at h
    cases hg : p.getUserMedia c with
    | ok s' => simp only [hg] at h; cases h
    | error n =>
      rw [hg] at h
      simp only [Except.error.injEq] at h
      subst h
      simp [Stream.startLoop, Stream.attemptTrace, hb, hg]

/-- Skipping a prefix of failing candidates: the loop result over
`pre ++ tail` is the loop result over `tail` for some threaded
`lastError`, and the trace is the prefix's calls followed by `tail`'s. -/
theorem Stream.startLoop_append_fail {p : Platform} {config : WebcamConfiguration}
    {pre : List Resolution}
    (hpre : ∀ r ∈ pre, ∃ e, Stream.attempt p config r = .error e) :
    ∀ (tail : List Resolution) (le : Option ThrownError), ∃ le₂,
      (Stream.startLoop p config (pre ++ tail) le).1 =
        (Stream.startLoop p config tail le₂).1 ∧
      (Stream.startLoop p config (pre ++ tail) le).2 =
        (pre.map (Stream.attemptTrace config)).flatten ++
          (Stream.startLoop p config tail le₂).2 := by
  induction pre with
  | nil => intro tail le; exact ⟨le, rfl, by simp⟩
  | cons r pre ih =>
    intro tail le
    obtain ⟨e, he⟩ := hpre r (List.mem_cons_self r pre)
    have hrest : ∀ r' ∈ pre, ∃ e', Stream.attempt p config r' = .error e' :=
      fun r' hr' => hpre r' (List.mem_cons_of_mem r hr')
    obtain ⟨le₂, h1, h2⟩ := ih hrest tail (some e)
    refine ⟨le₂, ?_, ?_⟩
    · rw [List.cons_append, Stream.startLoop_cons_err he, h1]
    · rw [List.cons_append, Stream.startLoop_cons_err he]
      simp only [List.map_cons, List.flatten_cons, List.append_assoc]
      rw [h2]

/-- Claim C1: with a resolution list, stream acquisition attempts the
candidates strictly in list order, building constraints with the exact
device id (when given) and the exact width/height of each candidate; the
first candidate whose acquisition succeeds stops the iteration and is
returned, with its original label, alongside the stream; each earlier
candidate's failure is swallowed; and if every candidate fails the
last error observed is the one thrown (wrapped by the start-error
mapping). -/
theorem claim_c1 :
    (∀ (p : Platform) (st : StreamState) (config : WebcamConfiguration)
        (pre post : List Resolution) (win : Resolution) (s : MediaStream),
        config.preferredResolutions = some (.list (pre ++ win :: post)) →
        (∀ r ∈ pre, ∃ e, Stream.attempt p config r = .error e) →
        Stream.attempt p config win = .ok s →
        Stream.startStream p st config =
          (.ok ({ activeStream := some s },
                { stream := s, usedResolution := some win }),
           ((pre ++ [win]).map (Stream.attemptTrace config)).flatten)) ∧
    (∀ (p : Platform) (st : StreamState) (config : WebcamConfiguration)
        (init : List Resolution) (last : Resolution) (e : ThrownError),
        config.preferredResolutions = some (.list (init ++ [last])) →
        (∀ r ∈ init, ∃ e', Stream.attempt p config r = .error e') →
        Stream.attempt p config last = .error e →
        (Stream.startStream p st config).1 =
          .error (Stream.handleStartError e)) ∧
    (∀ (config : WebcamConfiguration) (r : Resolution)
        (c : MediaStreamConstraints),
        Stream.buildConstraints
            { config with preferredResolutions := some (.single r) } = .ok c →
        c.video.width = some (.exact r.width) ∧
        c.video.height = some (.exact r.height) ∧
        c.video.deviceId = Stream.configDeviceId config) := by
  refine ⟨?_, ?_, ?_⟩
  · intro p st config pre post win s hcfg hpre hwin
    obtain ⟨le₂, h1, h2⟩ :=
      Stream.startLoop_append_fail hpre (win :: post) none
    have hcons := Stream.startLoop_cons_ok hwin post le₂
    have hc1 := congrArg Prod.fst hcons
    have hc2 := congrArg Prod.snd hcons
    simp only at hc1 hc2
    rw [hc1] at h1
    rw [hc2] at h2
    simp only [Stream.startStream, hcfg, h1, h2, List.map_append,
      List.flatten_append, List.map_cons, List.map_nil, List.flatten_cons,
      List.flatten_nil, List.append_nil]
  · intro p st config init last e hcfg hinit hlast
    obtain ⟨le₂, h1, _⟩ :=
      Stream.startLoop_append_fail hinit [last] none
    have hcons := Stream.startLoop_cons_err hlast [] le₂
    rw [hcons] at h1
    simp only [Stream.startLoop, Option.getD_some] at h1
    simp only [Stream.startStream, hcfg, h1]
  · intro config r c h
    simp only [Stream.buildConstraints, PreferredResolutions.toList,
      Stream.validateResolutions, PreferredResolutions.first?] at h
    by_cases hv : r.width = 0 ∨ r.height = 0
    · simp only [if_pos hv] at h; cases h
    · simp only [if_neg hv, Except.ok.injEq] at h
      subst h
      exact ⟨rfl, rfl, rfl⟩

/-- Witness for C1 at the concrete example: on a platform that satisfies
only `exact` 1280, the 720×720 candidate fails, the HD candidate wins
with its original label, and the trace shows both attempts in order. -/
theorem claim_c1_witness :
    Stream.startStream pDemo {} cfgC2 =
      (.ok ({ activeStream := some demoStream },
            { stream := demoStream, usedResolution := some ⟨"HD", 1280, 720⟩ }),
       (([(⟨"S720", 720, 720⟩ : Resolution)] ++
           [(⟨"HD", 1280, 720⟩ : Resolution)]).map
          (Stream.attemptTrace cfgC2)).flatten) := by
  have hpre : ∀ r ∈ [(⟨"S720", 720, 720⟩ : Resolution)],
      ∃ e, Stream.attempt pDemo cfgC2 r = .error e := by
    intro r hr
    simp only [List.mem_singleton] at hr
    subst hr
    exact ⟨ThrownError.jsError "OverconstrainedError", rfl⟩
  exact claim_c1.1 pDemo {} cfgC2 [⟨"S720", 720, 720⟩] [] ⟨"HD", 1280, 720⟩
    demoStream rfl hpre rfl

/-- Claim C2 is what the code should do but does not: after the claimed
failing input (request `[S720 720×720, HD 1280×720]` where only
1280×720 is satisfiable) the start succeeds, but the session state never
records the winning candidate: `state.activeResolution` stays `none`
(although `startStream` did report `usedResolution` with label `"HD"`,
`Webcam.start` drops it by storing the whole result object), and
`getCurrentResolution` does not return the original label — it fails on
the mis-stored value (and by the declared types would rebuild a
`"1280x720"` label from track settings instead).  The repository's own
`docs/fix-resolution-label.md` documents this as the bug to fix. -/
theorem claim_c2_code_bug :
    (Webcam.start pDemo (Webcam.init none) (some cfgC2)).1 = .ok () ∧
    wStarted.state.status = .ready ∧
    wStarted.state.activeResolution = none ∧
    wStarted.state.activeStream =
      some { stream := demoStream, usedResolution := some ⟨"HD", 1280, 720⟩ } ∧
    Webcam.getCurrentResolution wStarted = .error (.jsError "TypeError") ∧
    settingsLabel demoTrack = "1280x720" := by
  refine ⟨rfl, rfl, rfl, rfl, rfl, rfl⟩

/-- Claim C3 as amended: a succeeding `start()` yields status `ready`
and a non-null `activeStream` whose value is exactly what the sink's
`srcObject` holds; a rejecting `start()` that reached acquisition (a
configuration exists) yields status `error` with the thrown error
recorded, but leaves the previous stream state and any previously
attached stream attached — it does not detach; a `start()` with no
configuration at all rejects while leaving the session (status included)
completely unchanged; and `stop()` from any state yields status `idle`,
no held stream, a detached sink, and a `stop()` call on every track of
the previously held stream. -/
theorem claim_c3_amended :
    (∀ (p : Platform) (w : WebcamSession) (c : Option WebcamConfiguration),
        (Webcam.start p w c).1 = .ok () →
        (Webcam.start p w c).2.1.state.status = .ready ∧
        ∃ a, (Webcam.start p w c).2.1.state.activeStream = some a ∧
          (∀ ve, (Webcam.start p w c).2.1.videoElement = some ve →
            ve.srcObject = some a)) ∧
    (∀ (p : Platform) (w : WebcamSession) (c : Option WebcamConfiguration)
        (e : ThrownError),
        (Webcam.start p w c).1 = .error e →
        (w.config.isSome ∨ c.isSome) →
        (Webcam.start p w c).2.1.state.status = .errored ∧
        (Webcam.start p w c).2.1.state.error = some e ∧
        (Webcam.start p w c).2.1.state.activeStream = w.state.activeStream ∧
        (Webcam.start p w c).2.1.streamSt = w.streamSt ∧
        ((c.bind (fun cc => cc.videoElement)).isNone →
          (Webcam.start p w c).2.1.videoElement = w.videoElement)) ∧
    (∀ (p : Platform) (w : WebcamSession),
        w.config = none →
        Webcam.start p w none =
          (.error (.webcamError "Configuration is required" .INVALID_CONFIG),
           w, [])) ∧
    (∀ w : WebcamSession,
        (Webcam.stop w).1.state.status = .idle ∧
        (Webcam.stop w).1.state.activeStream = none ∧
        (Webcam.stop w).1.streamSt.activeStream = none ∧
        (∀ ve, (Webcam.stop w).1.videoElement = some ve → ve.srcObject = none) ∧
        (∀ s, w.streamSt.activeStream = some s →
          (Webcam.stop w).2 = s.tracks.map (fun t => t.id)) ∧
        (w.streamSt.activeStream = none → (Webcam.stop w).2 = [])) := by
  refine ⟨?_, ?_, ?_, ?_⟩
  · intro p w c h
    simp only [Webcam.start] at h ⊢
    cases hcfg : (Webcam.mergeConfigStep w c).config with
    | none => simp only [hcfg] at h; cases h
    | some cfg =>
      simp only [hcfg] at h ⊢
      cases hss : (Stream.startStream p (Webcam.mergeConfigStep w c).streamSt cfg).1 with
      | error e => simp only [hss] at h; cases h
      | ok res =>
        obtain ⟨stSt, result⟩ := res
        simp only [hss]
        cases hve : (Webcam.mergeConfigStep w c).videoElement with
        | none => simp [hve]
        | some ve =>
          simp only [hve]
          by_cases hm : cfg.enableMirror.getD false
          · simp [hm, Webcam.setMirror]
          · simp [hm]
  · intro p w c e h hcfgsome
    simp only [Webcam.start] at h ⊢
    cases hcfg : (Webcam.mergeConfigStep w c).config with
    | none =>
      exfalso
      cases c with
      | none =>
        simp only [Webcam.mergeConfigStep] at hcfg
        simp only [Option.isSome] at hcfgsome
        rcases hcfgsome with h' | h'
        · rw [hcfg] at h'; cases h'
        · cases h'
      | some cc => simp [Webcam.mergeConfigStep] at hcfg
    | some cfg =>
      simp only [hcfg] at h ⊢
      cases hss : (Stream.startStream p (Webcam.mergeConfigStep w c).streamSt cfg).1 with
      | ok res =>
        obtain ⟨stSt, result⟩ := res
        simp only [hss] at h
        cases h
      | error e' =>
        simp only [hss] at h ⊢
        have he : (if e'.isWebcamError = true then e'
            else .webcamWrapped "Start failed" .UNKNOWN_ERROR e') = e := by
          by_cases hw : e'.isWebcamError = true
          · simpa [hw] using h
          · simpa [hw] using h
        simp only [he]
        refine ⟨by trivial, by trivial, ?_, ?_, ?_⟩
        · cases c with
          | none => simp [Webcam.mergeConfigStep]
          | some cc => simp [Webcam.mergeConfigStep]
        · cases c with
          | none => simp [Webcam.mergeConfigStep]
          | some cc => simp [Webcam.mergeConfigStep]
        · intro hnone
          cases c with
          | none => simp [Webcam.mergeConfigStep]
          | some cc =>
            have hvecc : cc.videoElement = none := by
              simpa using hnone
            simp [Webcam.mergeConfigStep, hvecc]
  · intro p w hc
    simp only [Webcam.start, Webcam.mergeConfigStep, hc]
  · intro w
    cases hs : w.streamSt.activeStream with
    | none =>
      refine ⟨rfl, rfl, ?_, ?_, ?_, ?_⟩
      · simp [Webcam.stop, Stream.stopStream, hs]
      · intro ve hve
        simp only [Webcam.stop] at hve
        cases hv : w.videoElement with
        | none => rw [hv] at hve; cases hve
        | some v =>
          rw [hv] at hve
          simp only [Option.some.injEq] at hve
          subst hve
          rfl
      · intro s hsome; cases hsome
      · intro _; simp [Webcam.stop, Stream.stopStream, hs]
    | some s =>
      refine ⟨rfl, rfl, ?_, ?_, ?_, ?_⟩
      · simp [Webcam.stop, Stream.stopStream, hs]
      · intro ve hve
        simp only [Webcam.stop] at hve
        cases hv : w.videoElement with
        | none => rw [hv] at hve; cases hve
        | some v =>
          rw [hv] at hve
          simp only [Option.some.injEq] at hve
          subst hve
          rfl
      · intro s' hsome
        simp only [Option.some.injEq] at hsome
        subst hsome
        simp [Webcam.stop, Stream.stopStream, hs]
      · intro hnone; cases hnone

/-- Witness for the amended C3 at the concrete session: the successful
start attaches the acquired value, and `stop()` resets to idle stopping
the demo track. -/
theorem claim_c3_witness :
    wStarted.state.status = .ready ∧
    (∃ a, wStarted.state.activeStream = some a ∧
      (∀ ve, wStarted.videoElement = some ve → ve.srcObject = some a)) ∧
    (Webcam.stop wStarted).1.state.status = .idle ∧
    (Webcam.stop wStarted).2 = [1] := by
  obtain ⟨h1, h2⟩ := claim_c3_amended.1 pDemo (Webcam.init none) (some cfgC2) rfl
  refine ⟨h1, h2, (claim_c3_amended.2.2.2 wStarted).1, ?_⟩
  exact ((claim_c3_amended.2.2.2 wStarted).2.2.2.2.1 demoStream rfl).trans rfl

/-- Claim C3 as stated is false: a second `start()` that rejects on an
already-attached session leaves the previous stream attachment in place
(the sink still holds the old stream and `state.activeStream` is
non-null while the status is `error`), and a `start()` that rejects for
want of a configuration leaves the status `idle`, not `error`. -/
theorem claim_c3_counterexample :
    (Webcam.start pDemo wStarted (some cfgSingleFHD)).1 =
      .error (.webcamWrapped "Camera constraints not satisfied" .OVERCONSTRAINED
        (.jsError "OverconstrainedError")) ∧
    (Webcam.start pDemo wStarted (some cfgSingleFHD)).2.1.state.status = .errored ∧
    (Webcam.start pDemo wStarted (some cfgSingleFHD)).2.1.state.activeStream.isSome
      = true ∧
    (Webcam.start pDemo wStarted (some cfgSingleFHD)).2.1.videoElement =
      some { demoVideo with srcObject := some demoAttached } ∧
    (Webcam.start pDemo (Webcam.init none) none).1 =
      .error (.webcamError "Configuration is required" .INVALID_CONFIG) ∧
    (Webcam.start pDemo (Webcam.init none) none).2.1.state.status = .idle := by
  exact ⟨rfl, rfl, rfl, rfl, rfl, rfl⟩

/-- Claim C5: `setZoom(z)` with `z < 1` rejects with an
`InvalidConfig`-coded error before any constraint call (zero
`Stream.applyConstraints` invocations, hence zero platform calls); with
`z ≥ 1` exactly one constraint call is made and, when it succeeds, the
session's zoom state is updated to `z`. -/
theorem claim_c5 (p : Platform) (w : WebcamSession) (z : ℚ) :
    (z < 1 → Webcam.setZoom p w z =
      (.error (.webcamError "Zoom level must be greater than or equal to 1"
        .INVALID_CONFIG), w, 0)) ∧
    (1 ≤ z →
      (Webcam.setZoom p w z).2.2 = 1 ∧
      ((Webcam.setZoom p w z).1 = .ok () →
        (Webcam.setZoom p w z).2.1.state.zoomLevel = some z)) := by
  constructor
  · intro hz
    simp [Webcam.setZoom, hz]
  · intro hz
    have hz' : ¬ z < 1 := not_lt.mpr hz
    cases ha : Stream.applyConstraints p w.streamSt { zoom := some z } with
    | ok u =>
      constructor
      · simp [Webcam.setZoom, hz', ha]
      · intro _; simp [Webcam.setZoom, hz', ha]
    | error e =>
      constructor
      · simp [Webcam.setZoom, hz', ha]
      · intro hok
        exfalso
        simp [Webcam.setZoom, hz', ha] at hok

/-- Witness for C5: `setZoom(1/2)` rejects with `INVALID_CONFIG` making
zero constraint calls; `setZoom(2)` makes one call and records the zoom. -/
theorem claim_c5_witness :
    Webcam.setZoom pDemo wStarted (1/2) =
      (.error (.webcamError "Zoom level must be greater than or equal to 1"
        .INVALID_CONFIG), wStarted, 0) ∧
    (Webcam.setZoom pDemo wStarted 2).2.2 = 1 ∧
    (Webcam.setZoom pDemo wStarted 2).2.1.state.zoomLevel = some 2 := by
  refine ⟨(claim_c5 pDemo wStarted (1/2)).1 (by norm_num), ?_, ?_⟩
  · exact ((claim_c5 pDemo wStarted 2).2 (by norm_num)).1
  · exact ((claim_c5 pDemo wStarted 2).2 (by norm_num)).2 rfl

/-- Claim C6: `Stream.applyConstraints` fails with a `StreamError`-coded
error when no stream is active or the active stream has no video track;
a platform `OverconstrainedError` is mapped to a `ConstraintError`-coded
error wrapping it; any other platform failure is mapped to a
`StreamError`-coded error wrapping it. -/
theorem claim_c6 (p : Platform) (st : StreamState)
    (c : MediaTrackConstraintSet) :
    (st.activeStream = none →
      Stream.applyConstraints p st c =
        .error (.webcamError "No active stream to apply constraints"
          .STREAM_ERROR)) ∧
    (∀ s, st.activeStream = some s → s.getVideoTracks = [] →
      Stream.applyConstraints p st c =
        .error (.webcamError "No video track found in active stream"
          .STREAM_ERROR)) ∧
    (∀ s t ts, st.activeStream = some s → s.getVideoTracks = t :: ts →
      p.applyTrackConstraints t { advanced := [c] } = .error "OverconstrainedError" →
      Stream.applyConstraints p st c =
        .error (.webcamWrapped "Cannot apply constraints: not supported by device"
          .CONSTRAINT_ERROR (.jsError "OverconstrainedError"))) ∧
    (∀ s t ts n, st.activeStream = some s → s.getVideoTracks = t :: ts →
      p.applyTrackConstraints t { advanced := [c] } = .error n →
      n ≠ "OverconstrainedError" →
      Stream.applyConstraints p st c =
        .error (.webcamWrapped "Failed to apply constraints" .STREAM_ERROR
          (.jsError n))) := by
  refine ⟨?_, ?_, ?_, ?_⟩
  · intro h
    simp [Stream.applyConstraints, h]
  · intro s hs htr
    simp [Stream.applyConstraints, hs, htr]
  · intro s t ts hs htr ha
    simp [Stream.applyConstraints, hs, htr, ha]
  · intro s t ts n hs htr ha hn
    simp [Stream.applyConstraints, hs, htr, ha, hn]

/-- Witness for C6: with no active stream the call is `STREAM_ERROR`;
on an always-overconstrained platform the call on the demo stream is
`CONSTRAINT_ERROR`. -/
theorem claim_c6_witness :
    Stream.applyConstraints pDemo {} { zoom := some 2 } =
      .error (.webcamError "No active stream to apply constraints"
        .STREAM_ERROR) ∧
    Stream.applyConstraints pOverconstrained { activeStream := some demoStream }
        { zoom := some 2 } =
      .error (.webcamWrapped "Cannot apply constraints: not supported by device"
        .CONSTRAINT_ERROR (.jsError "OverconstrainedError")) := by
  constructor
  · exact (claim_c6 pDemo {} { zoom := some 2 }).1 rfl
  · exact (claim_c6 pOverconstrained { activeStream := some demoStream }
      { zoom := some 2 }).2.2.1 demoStream demoTrack [] rfl rfl rfl

/-- Claim C7 is false as stated: with a single `Resolution` the one
attempt's constraints use `exact`, not `ideal`, dimensions.  At the
concrete input `{label:"HD",1280,720}` the single `getUserMedia` call
carries `width: {exact:1280}, height: {exact:720}`, and an `exact`
constraint is not an `ideal` one. -/
theorem claim_c7_counterexample :
    (Stream.startStream pDemo {} cfgSingleHD).2 =
      [{ video := { deviceId := none, width := some (.exact 1280),
                    height := some (.exact 720) }, audio := false }] ∧
    ConstrainNat.exact 1280 ≠ ConstrainNat.ideal 1280 ∧
    ConstrainNat.exact 720 ≠ ConstrainNat.ideal 720 := by
  refine ⟨rfl, ?_, ?_⟩ <;> intro h <;> cases h

/-- Claim C7 as amended: when `preferredResolutions` is absent,
acquisition makes exactly one attempt whose constraints use the `ideal`
1280×720 default; when it is a single `Resolution` (with truthy
dimensions), exactly one attempt is made whose constraints use the
`exact` dimensions of that resolution. -/
theorem claim_c7_amended :
    (∀ (p : Platform) (st : StreamState) (config : WebcamConfiguration),
        config.preferredResolutions = none →
        (Stream.startStream p st config).2 =
          [{ video := { deviceId := Stream.configDeviceId config,
                        width := some (.ideal 1280),
                        height := some (.ideal 720) },
             audio := config.enableAudio.getD false }]) ∧
    (∀ (p : Platform) (st : StreamState) (config : WebcamConfiguration)
        (r : Resolution),
        config.preferredResolutions = some (.single r) →
        r.width ≠ 0 → r.height ≠ 0 →
        (Stream.startStream p st config).2 =
          [{ video := { deviceId := Stream.configDeviceId config,
                        width := some (.exact r.width),
                        height := some (.exact r.height) },
             audio := config.enableAudio.getD false }]) := by
  constructor
  · intro p st config hcfg
    have hb : Stream.buildConstraints config =
        .ok { video := { deviceId := Stream.configDeviceId config,
                         width := some (.ideal 1280),
                         height := some (.ideal 720) },
              audio := config.enableAudio.getD false } := by
      simp [Stream.buildConstraints, hcfg, DEFAULT_RESOLUTION]
    simp only [Stream.startStream, hcfg, hb]
    cases hg : p.getUserMedia
        { video := { deviceId := Stream.configDeviceId config,
                     width := some (.ideal 1280),
                     height := some (.ideal 720) },
          audio := config.enableAudio.getD false } with
    | ok s => simp [hg]
    | error n => simp [hg]
  · intro p st config r hcfg hw hh
    have hb : Stream.buildConstraints config =
        .ok { video := { deviceId := Stream.configDeviceId config,
                         width := some (.exact r.width),
                         height := some (.exact r.height) },
              audio := config.enableAudio.getD false } := by
      simp [Stream.buildConstraints, hcfg, PreferredResolutions.toList,
        Stream.validateResolutions, PreferredResolutions.first?, hw, hh]
    simp only [Stream.startStream, hcfg, hb]
    cases hg : p.getUserMedia
        { video := { deviceId := Stream.configDeviceId config,
                     width := some (.exact r.width),
                     height := some (.exact r.height) },
          audio := config.enableAudio.getD false } with
    | ok s => simp [hg]
    | error n => simp [hg]

/-- Witness for the amended C7: the single-HD configuration makes one
`exact` 1280×720 attempt; the empty configuration makes one `ideal`
1280×720 attempt. -/
theorem claim_c7_witness :
    (Stream.startStream pDemo {} cfgSingleHD).2 =
      [{ video := { deviceId := Stream.configDeviceId cfgSingleHD,
                    width := some (.exact 1280), height := some (.exact 720) },
         audio := cfgSingleHD.enableAudio.getD false }] ∧
    (Stream.startStream pDemo {} ({} : WebcamConfiguration)).2 =
      [{ video := { deviceId := Stream.configDeviceId ({} : WebcamConfiguration),
                    width := some (.ideal 1280), height := some (.ideal 720) },
         audio := ({} : WebcamConfiguration).enableAudio.getD false }] := by
  constructor
  · exact claim_c7_amended.2 pDemo {} cfgSingleHD ⟨"HD", 1280, 720⟩ rfl
      (by decide) (by decide)
  · exact claim_c7_amended.1 pDemo {} {} rfl

/-- Any member with falsy dimensions makes the validation loop throw the
`INVALID_CONFIG` resolution error. -/
theorem Stream.validateResolutions_mem {l : List Resolution} {r : Resolution}
    (hr : r ∈ l) (hbad : r.width = 0 ∨ r.height = 0) :
    Stream.validateResolutions l = .error invalidResolutionError := by
  induction l with
  | nil => cases hr
  | cons a tl ih =>
    by_cases ha : a.width = 0 ∨ a.height = 0
    · simp [Stream.validateResolutions, ha]
    · have htl : r ∈ tl := by
        rcases List.mem_cons.mp hr with h | h
        · exact absurd (h ▸ hbad) ha
        · exact h
      simp [Stream.validateResolutions, ha, ih htl]

/-- Claim C10: a configured resolution with a missing/zero width or
height makes constraint building throw the `InvalidConfig`-coded error;
in the single-resolution path `startStream` then throws (wrapped by the
start-error mapping) with an empty `getUserMedia` trace, i.e. before any
platform call; in the list path the invalid candidate is swallowed like
any other failure and the loop continues with the next candidate. -/
theorem claim_c10 :
    invalidResolutionError.code = some .INVALID_CONFIG ∧
    (∀ (config : WebcamConfiguration) (pr : PreferredResolutions)
        (r : Resolution),
        config.preferredResolutions = some pr →
        r ∈ pr.toList → (r.width = 0 ∨ r.height = 0) →
        Stream.buildConstraints config = .error invalidResolutionError) ∧
    (∀ (p : Platform) (st : StreamState) (config : WebcamConfiguration)
        (r : Resolution),
        config.preferredResolutions = some (.single r) →
        (r.width = 0 ∨ r.height = 0) →
        Stream.startStream p st config =
          (.error (Stream.handleStartError invalidResolutionError), [])) ∧
    (∀ (p : Platform) (config : WebcamConfiguration) (r : Resolution)
        (rest : List Resolution) (le : Option ThrownError),
        (r.width = 0 ∨ r.height = 0) →
        Stream.startLoop p config (r :: rest) le =
          Stream.startLoop p config rest (some invalidResolutionError)) := by
  have hbuild : ∀ (config : WebcamConfiguration) (pr : PreferredResolutions)
      (r : Resolution),
      config.preferredResolutions = some pr →
      r ∈ pr.toList → (r.width = 0 ∨ r.height = 0) →
      Stream.buildConstraints config = .error invalidResolutionError := by
    intro config pr r hcfg hr hbad
    simp [Stream.buildConstraints, hcfg,
      Stream.validateResolutions_mem hr hbad]
  refine ⟨rfl, hbuild, ?_, ?_⟩
  · intro p st config r hcfg hbad
    have hb := hbuild config (.single r) r hcfg
      (by simp [PreferredResolutions.toList]) hbad
    simp only [Stream.startStream, hcfg, hb]
  · intro p config r rest le hbad
    have hb := hbuild { config with preferredResolutions := some (.single r) }
      (.single r) r rfl (by simp [PreferredResolutions.toList]) hbad
    simp only [Stream.startLoop, hb]

/-- Witness for C10: a zero-width single resolution throws the
`INVALID_CONFIG` error with no platform call, and as a list candidate it
is skipped in favour of the next candidate. -/
theorem claim_c10_witness :
    Stream.buildConstraints
        ({ preferredResolutions := some (.single ⟨"bad", 0, 720⟩) } :
          WebcamConfiguration) = .error invalidResolutionError ∧
    Stream.startStream pDemo {}
        ({ preferredResolutions := some (.single ⟨"bad", 0, 720⟩) } :
          WebcamConfiguration) =
      (.error (Stream.handleStartError invalidResolutionError), []) ∧
    Stream.startLoop pDemo cfgC2 [⟨"bad", 0, 720⟩] none =
      Stream.startLoop pDemo cfgC2 [] (some invalidResolutionError) := by
  refine ⟨?_, ?_, ?_⟩
  · exact claim_c10.2.1 _ (.single ⟨"bad", 0, 720⟩) ⟨"bad", 0, 720⟩ rfl
      (by simp [PreferredResolutions.toList]) (by left; rfl)
  · exact claim_c10.2.2.1 pDemo {} _ ⟨"bad", 0, 720⟩ rfl (by left; rfl)
  · exact claim_c10.2.2.2 pDemo cfgC2 ⟨"bad", 0, 720⟩ [] none (by left; rfl)

/-- Inversion of the shared mirror-transform step: on success the state
differs from the input at most in `cachedMirror`, which now equals the
requested flag. -/
theorem Capture.mirrorTransformStep_ok {cs : CaptureState} {mirror : Bool}
    {cs₂ : CaptureState}
    (h : Capture.mirrorTransformStep cs mirror = .ok cs₂) :
    cs₂.cachedMirror = mirror ∧ cs₂.canvas = cs.canvas ∧
    cs₂.contextPresent = cs.contextPresent ∧
    cs₂.reusableImageData = cs.reusableImageData ∧
    cs₂.cachedWidth = cs.cachedWidth ∧ cs₂.cachedHeight = cs.cachedHeight ∧
    cs₂.cachedScale = cs.cachedScale ∧ cs₂.nextAllocId = cs.nextAllocId ∧
    cs₂.mirrorCanvas = cs.mirrorCanvas ∧
    cs₂.mirrorContextPresent = cs.mirrorContextPresent := by
  unfold Capture.mirrorTransformStep at h
  by_cases hm : mirror = cs.cachedMirror
  · simp only [if_pos hm, Except.ok.injEq] at h
    subst h
    exact ⟨hm.symm, rfl, rfl, rfl, rfl, rfl, rfl, rfl, rfl, rfl⟩
  · simp only [if_neg hm] at h
    by_cases hc : cs.contextPresent = true
    · simp only [if_pos hc, Except.ok.injEq] at h
      subst h
      exact ⟨rfl, rfl, rfl, rfl, rfl, rfl, rfl, rfl, rfl, rfl⟩
    · simp only [if_neg hc] at h; cases h

/-- Inversion of the draw/read step of `captureImageData`: success needs
a live context; the result carries the requested dimensions and the
pooled buffer, which is either the one already pooled (state unchanged)
or a fresh allocation at the current counter. -/
theorem Capture.drawAndReadStep_ok {cs : CaptureState} {w h : ℤ}
    {cs' : CaptureState} {r : CaptureImageDataResult}
    (hk : Capture.drawAndReadStep cs w h = .ok (cs', r)) :
    cs.contextPresent = true ∧ r.width = w ∧ r.height = h ∧
    cs'.reusableImageData = some r.imageData ∧
    cs'.cachedWidth = cs.cachedWidth ∧ cs'.cachedHeight = cs.cachedHeight ∧
    cs'.cachedScale = cs.cachedScale ∧ cs'.cachedMirror = cs.cachedMirror ∧
    cs'.contextPresent = true ∧ cs'.canvas = cs.canvas ∧
    ((cs.reusableImageData = some r.imageData ∧ cs' = cs) ∨
     (cs.reusableImageData = none ∧ r.imageData.allocId = cs.nextAllocId ∧
      cs'.nextAllocId = cs.nextAllocId + 1)) := by
  unfold Capture.drawAndReadStep at hk
  by_cases hc : cs.contextPresent = true
  · simp only [if_pos hc] at hk
    cases hr : cs.reusableImageData with
    | none =>
      rw [hr] at hk
      simp only [Except.ok.injEq, Prod.mk.injEq] at hk
      obtain ⟨h1, h2⟩ := hk
      subst h1
      subst h2
      exact ⟨hc, rfl, rfl, rfl, rfl, rfl, rfl, rfl, hc, rfl,
        Or.inr ⟨rfl, rfl, rfl⟩⟩
    | some img =>
      rw [hr] at hk
      simp only [Except.ok.injEq, Prod.mk.injEq] at hk
      obtain ⟨h1, h2⟩ := hk
      subst h1
      subst h2
      exact ⟨hc, rfl, rfl, hr, rfl, rfl, rfl, rfl, hc, rfl, Or.inl ⟨rfl, rfl⟩⟩
  · simp only [if_neg hc] at hk; cases hk

/-- Inversion of the draw/encode tail of `captureImage`: success leaves
the capture state untouched and carries the requested dimensions. -/
theorem Capture.drawAndEncodeStep_ok {api : CanvasApi} {cs : CaptureState}
    {it : String} {q : ℚ} {ib : Bool} {w h : ℤ} {cs' : CaptureState}
    {r : CaptureImageResult}
    (hk : Capture.drawAndEncodeStep api cs it q ib w h = .ok (cs', r)) :
    cs' = cs ∧ r.width = w ∧ r.height = h := by
  unfold Capture.drawAndEncodeStep at hk
  by_cases hc : cs.contextPresent = true
  · simp only [if_pos hc] at hk
    cases hcv : cs.canvas with
    | none => simp only [hcv] at hk; cases hk
    | some canvas =>
      simp only [hcv] at hk
      cases hb : api.toBlob canvas it q with
      | none => simp only [hb] at hk; cases hk
      | some blob =>
        simp only [hb] at hk
        by_cases hib : ib = true
        · simp only [if_pos hib] at hk
          cases hread : api.readAsDataUrl blob with
          | none => simp only [hread] at hk; cases hk
          | some b64 =>
            simp only [hread] at hk
            simp only [Except.ok.injEq, Prod.mk.injEq] at hk
            obtain ⟨h1, h2⟩ := hk
            subst h1
            subst h2
            exact ⟨rfl, rfl, rfl⟩
        · simp only [if_neg hib] at hk
          simp only [Except.ok.injEq, Prod.mk.injEq] at hk
          obtain ⟨h1, h2⟩ := hk
          subst h1
          subst h2
          exact ⟨rfl, rfl, rfl⟩
  · simp only [if_neg hc] at hk; cases hk

/-- Inversion of the mirror path of `captureImageBitmap`: success
carries the requested dimensions. -/
theorem Capture.mirrorBitmapStep_ok {cs : CaptureState} {w h : ℤ}
    {cs' : CaptureState} {r : CaptureImageBitmapResult}
    (hk : Capture.mirrorBitmapStep cs w h = .ok (cs', r)) :
    r.width = w ∧ r.height = h := by
  unfold Capture.mirrorBitmapStep at hk
  cases hmc : cs.mirrorCanvas with
  | none => rw [hmc] at hk; cases hk
  | some mc =>
    rw [hmc] at hk
    by_cases hd : mc.width ≠ w ∨ mc.height ≠ h
    · simp only [if_pos hd] at hk
      split at hk
      · split at hk
        · cases hk
        · simp only [Except.ok.injEq, Prod.mk.injEq] at hk
          obtain ⟨h1, h2⟩ := hk
          subst h2
          exact ⟨rfl, rfl⟩
      · cases hk
    · simp only [if_neg hd] at hk
      split at hk
      · split at hk
        · cases hk
        · simp only [Except.ok.injEq, Prod.mk.injEq] at hk
          obtain ⟨h1, h2⟩ := hk
          subst h2
          exact ⟨rfl, rfl⟩
      · cases hk

/-- Claim C4: for every capture call with scale in `[0.1, 2.0]` the
clamp is the identity, so the output dimensions of all three capture
methods equal `floor(sourceDimension × scale)` where the source
dimension is the crop size when a crop is given and the full frame size
otherwise; scale values outside the interval are clamped into it before
the computation. -/
theorem claim_c4 (sc : ℚ) (hlo : 1/10 ≤ sc) (hhi : sc ≤ 2) :
    clampScale (some sc) = sc ∧
    (∀ so : Option ℚ, 1/10 ≤ clampScale so ∧ clampScale so ≤ 2) ∧
    (∀ (cs : CaptureState) (video : VideoElement)
        (opts : CaptureImageDataOptions) (cs' : CaptureState)
        (r : CaptureImageDataResult),
        Capture.captureImageData cs video opts = .ok (cs', r) →
        r.width = ⌊(captureSourceDims video opts.crop).1 * clampScale opts.scale⌋ ∧
        r.height = ⌊(captureSourceDims video opts.crop).2 * clampScale opts.scale⌋) ∧
    (∀ (api : CanvasApi) (cs : CaptureState) (video : VideoElement)
        (opts : CaptureImageOptions) (cs' : CaptureState)
        (r : CaptureImageResult),
        Capture.captureImage api cs video opts = .ok (cs', r) →
        r.width = ⌊(captureSourceDims video opts.crop).1 * clampScale opts.scale⌋ ∧
        r.height = ⌊(captureSourceDims video opts.crop).2 * clampScale opts.scale⌋) ∧
    (∀ (cs : CaptureState) (video : VideoElement)
        (opts : CaptureImageBitmapOptions) (cs' : CaptureState)
        (r : CaptureImageBitmapResult),
        Capture.captureImageBitmap cs video opts = .ok (cs', r) →
        r.width = ⌊(captureSourceDims video opts.crop).1 * clampScale opts.scale⌋ ∧
        r.height = ⌊(captureSourceDims video opts.crop).2 * clampScale opts.scale⌋) := by
  refine ⟨?_, ?_, ?_, ?_, ?_⟩
  · simp only [clampScale]
    rw [min_eq_right hhi, max_eq_right hlo]
  · intro so
    cases so with
    | none => constructor <;> norm_num [clampScale]
    | some v =>
      constructor
      · exact le_max_left _ _
      · exact max_le (by norm_num) (min_le_left _ _)
  · intro cs video opts cs' r h
    simp only [Capture.captureImageData] at h
    split at h
    · cases h
    · split at h
      · cases h
      · obtain ⟨_, hw, hh, _⟩ := Capture.drawAndReadStep_ok h
        exact ⟨hw, hh⟩
  · intro api cs video opts cs' r h
    simp only [Capture.captureImage] at h
    split at h
    · cases h
    · split at h
      · cases h
      · obtain ⟨_, hw, hh⟩ := Capture.drawAndEncodeStep_ok h
        exact ⟨hw, hh⟩
  · intro cs video opts cs' r h
    simp only [Capture.captureImageBitmap] at h
    split at h
    · cases h
    · split at h
      · split at h
        · cases h
        · simp only [Except.ok.injEq, Prod.mk.injEq] at h
          obtain ⟨h1, h2⟩ := h
          subst h2
          exact ⟨rfl, rfl⟩
      · exact Capture.mirrorBitmapStep_ok h

section EvalRat

attribute [local semireducible] Rat.mul Rat.inv Rat.add Rat.sub

/-- Witness for C4: at scale 1/2 the clamp is the identity, out-of-range
scale 5 is clamped into the interval, and a concrete capture of the
1280×720 demo frame at scale 1/2 yields 640×360 = floor(dim × 1/2). -/
theorem claim_c4_witness :
    clampScale (some (1/2)) = 1/2 ∧
    (1/10 ≤ clampScale (some (5 : ℚ)) ∧ clampScale (some (5 : ℚ)) ≤ 2) ∧
    ((Capture.captureImageData Capture.init demoVideo
        { scale := some (1/2) }).toOption.map
      (fun x => (x.2.width, x.2.height)) = some (640, 360)) := by
  have hc := claim_c4 (1/2) (by norm_num) (by norm_num)
  exact ⟨hc.1, hc.2.1 (some 5), by decide⟩

end EvalRat

/-- Full inversion of a successful `captureImageData` call on a state
whose pooled canvas exists: the output dimensions are the floor formula,
the caches now record them, the mirror flag is cached, the context is
live, the pooled buffer is the returned one; a call whose dimensions or
scale differ from the incoming caches returns a buffer freshly allocated
at the incoming counter; and when every pooled buffer id is below the
counter, the returned id stays below the outgoing counter. -/
theorem Capture.captureImageData_ok_inv {cs : CaptureState}
    {video : VideoElement} {opts : CaptureImageDataOptions}
    {cs₁ : CaptureState} {r₁ : CaptureImageDataResult}
    (hcv : cs.canvas.isSome = true)
    (h : Capture.captureImageData cs video opts = .ok (cs₁, r₁)) :
    ¬ video.readyState < 2 ∧
    r₁.width = ⌊(captureSourceDims video opts.crop).1 * clampScale opts.scale⌋ ∧
    r₁.height = ⌊(captureSourceDims video opts.crop).2 * clampScale opts.scale⌋ ∧
    cs₁.cachedWidth = r₁.width ∧
    cs₁.cachedHeight = r₁.height ∧
    cs₁.cachedScale = clampScale opts.scale ∧
    cs₁.cachedMirror = opts.mirror.getD false ∧
    cs₁.contextPresent = true ∧
    cs₁.canvas.isSome = true ∧
    cs₁.reusableImageData = some r₁.imageData ∧
    ((cs.cachedWidth ≠ ⌊(captureSourceDims video opts.crop).1 * clampScale opts.scale⌋ ∨
      cs.cachedHeight ≠ ⌊(captureSourceDims video opts.crop).2 * clampScale opts.scale⌋ ∨
      cs.cachedScale ≠ clampScale opts.scale) →
      r₁.imageData.allocId = cs.nextAllocId ∧ cs₁.nextAllocId = cs.nextAllocId + 1) ∧
    ((∀ b, cs.reusableImageData = some b → b.allocId < cs.nextAllocId) →
      r₁.imageData.allocId < cs₁.nextAllocId) := by
  obtain ⟨canvas, hcanvas⟩ := Option.isSome_iff_exists.mp hcv
  simp only [Capture.captureImageData] at h
  by_cases hrdy : video.readyState < 2
  · rw [if_pos hrdy] at h; cases h
  · rw [if_neg hrdy] at h
    by_cases hcond : cs.cachedWidth ≠ ⌊(captureSourceDims video opts.crop).1 * clampScale opts.scale⌋ ∨
        cs.cachedHeight ≠ ⌊(captureSourceDims video opts.crop).2 * clampScale opts.scale⌋ ∨
        cs.cachedScale ≠ clampScale opts.scale
    · rw [if_pos hcond] at h
      have hresz : Capture.resizeCanvas cs
          ⌊(captureSourceDims video opts.crop).1 * clampScale opts.scale⌋
          ⌊(captureSourceDims video opts.crop).2 * clampScale opts.scale⌋
          (clampScale opts.scale) =
          { cs with
            canvas := some { width := ⌊(captureSourceDims video opts.crop).1 * clampScale opts.scale⌋,
                             height := ⌊(captureSourceDims video opts.crop).2 * clampScale opts.scale⌋ }
            cachedWidth := ⌊(captureSourceDims video opts.crop).1 * clampScale opts.scale⌋
            cachedHeight := ⌊(captureSourceDims video opts.crop).2 * clampScale opts.scale⌋
            cachedScale := clampScale opts.scale
            reusableImageData := none } := by
        unfold Capture.resizeCanvas
        rw [hcanvas]
      rw [hresz] at h
      cases hms : Capture.mirrorTransformStep
          { cs with
            canvas := some { width := ⌊(captureSourceDims video opts.crop).1 * clampScale opts.scale⌋,
                             height := ⌊(captureSourceDims video opts.crop).2 * clampScale opts.scale⌋ }
            cachedWidth := ⌊(captureSourceDims video opts.crop).1 * clampScale opts.scale⌋
            cachedHeight := ⌊(captureSourceDims video opts.crop).2 * clampScale opts.scale⌋
            cachedScale := clampScale opts.scale
            reusableImageData := none } (opts.mirror.getD false) with
      | error e => rw [hms] at h; cases h
      | ok cs₃ =>
        rw [hms] at h
        obtain ⟨m1, m2, m3, m4, m5, m6, m7, m8, _, _⟩ :=
          Capture.mirrorTransformStep_ok hms
        obtain ⟨d1, d2, d3, d4, d5, d6, d7, d8, d9, d10, d11⟩ :=
          Capture.drawAndReadStep_ok h
        refine ⟨hrdy, d2, d3, ?_, ?_, ?_, ?_, d9, ?_, d4, ?_, ?_⟩
        · rw [d5, m5, d2]
        · rw [d6, m6, d3]
        · rw [d7, m7]
        · rw [d8, m1]
        · simp [d10, m2]
        · intro _
          rcases d11 with ⟨hre, _⟩ | ⟨_, hid, hnx⟩
          · rw [m4] at hre; cases hre
          · rw [hid, hnx, m8]
            exact ⟨rfl, rfl⟩
        · intro _
          rcases d11 with ⟨hre, _⟩ | ⟨_, hid, hnx⟩
          · rw [m4] at hre; cases hre
          · rw [hid, hnx, m8]
            exact Nat.lt_succ_self _
    · rw [if_neg hcond] at h
      push_neg at hcond
      obtain ⟨he1, he2, he3⟩ := hcond
      cases hms : Capture.mirrorTransformStep cs (opts.mirror.getD false) with
      | error e => rw [hms] at h; cases h
      | ok cs₃ =>
        rw [hms] at h
        obtain ⟨m1, m2, m3, m4, m5, m6, m7, m8, _, _⟩ :=
          Capture.mirrorTransformStep_ok hms
        obtain ⟨d1, d2, d3, d4, d5, d6, d7, d8, d9, d10, d11⟩ :=
          Capture.drawAndReadStep_ok h
        refine ⟨hrdy, d2, d3, ?_, ?_, ?_, ?_, d9, ?_, d4, ?_, ?_⟩
        · rw [d5, m5, he1, d2]
        · rw [d6, m6, he2, d3]
        · rw [d7, m7, he3]
        · rw [d8, m1]
        · rw [d10, m2, hcanvas]; rfl
        · intro hcond'
          exfalso
          rcases hcond' with hx | hx | hx
          · exact hx he1
          · exact hx he2
          · exact hx he3
        · intro hinv
          rcases d11 with ⟨hre, hcs⟩ | ⟨_, hid, hnx⟩
          · rw [m4] at hre
            have := hinv _ hre
            rw [hcs, m8]
            exact this
          · rw [hid, hnx, m8]
            exact Nat.lt_succ_self _

/-- Claim C8: pooled-buffer law of `captureImageData`.  On an engine
state whose pooled canvas exists and whose pooled buffer (if any) was
allocated by the engine, a second call with the same options returns the
very same pooled buffer object (same allocation identity) and the very
same state; a second call whose resulting dimensions or scale differ
from the cached ones reallocates, returning a buffer object distinct
from the previous one. -/
theorem claim_c8 (cs : CaptureState) (video : VideoElement)
    (opts opts' : CaptureImageDataOptions)
    (hcv : cs.canvas.isSome = true)
    (hinv : ∀ b, cs.reusableImageData = some b → b.allocId < cs.nextAllocId) :
    (∀ cs₁ r₁, Capture.captureImageData cs video opts = .ok (cs₁, r₁) →
      Capture.captureImageData cs₁ video opts = .ok (cs₁, r₁)) ∧
    (∀ cs₁ r₁ cs₂ r₂,
      Capture.captureImageData cs video opts = .ok (cs₁, r₁) →
      Capture.captureImageData cs₁ video opts' = .ok (cs₂, r₂) →
      (cs₁.cachedWidth ≠ ⌊(captureSourceDims video opts'.crop).1 * clampScale opts'.scale⌋ ∨
       cs₁.cachedHeight ≠ ⌊(captureSourceDims video opts'.crop).2 * clampScale opts'.scale⌋ ∨
       cs₁.cachedScale ≠ clampScale opts'.scale) →
      r₂.imageData.allocId ≠ r₁.imageData.allocId ∧ r₂.imageData ≠ r₁.imageData) := by
  constructor
  · intro cs₁ r₁ h1
    obtain ⟨hrdy, hw, hh, hcw, hch, hcsc, hcm, hctx, _, hreu, _, _⟩ :=
      Capture.captureImageData_ok_inv hcv h1
    simp only [Capture.captureImageData]
    rw [if_neg hrdy]
    have hcond : ¬(cs₁.cachedWidth ≠ ⌊(captureSourceDims video opts.crop).1 * clampScale opts.scale⌋ ∨
        cs₁.cachedHeight ≠ ⌊(captureSourceDims video opts.crop).2 * clampScale opts.scale⌋ ∨
        cs₁.cachedScale ≠ clampScale opts.scale) := by
      push_neg
      exact ⟨by rw [hcw, hw], by rw [hch, hh], hcsc⟩
    rw [if_neg hcond]
    have hms : Capture.mirrorTransformStep cs₁ (opts.mirror.getD false) = .ok cs₁ := by
      unfold Capture.mirrorTransformStep
      rw [if_pos hcm.symm]
    simp only [hms]
    simp only [Capture.drawAndReadStep, if_pos hctx, hreu]
    cases r₁ with
    | mk img wid hei =>
      simp only at hw hh
      rw [hw, hh]
  · intro cs₁ r₁ cs₂ r₂ h1 h2 hdiff
    obtain ⟨_, _, _, _, _, _, _, _, hcv1, _, _, hok1⟩ :=
      Capture.captureImageData_ok_inv hcv h1
    obtain ⟨_, _, _, _, _, _, _, _, _, _, hfresh, _⟩ :=
      Capture.captureImageData_ok_inv hcv1 h2
    have hlt : r₁.imageData.allocId < cs₁.nextAllocId := hok1 hinv
    have hid : r₂.imageData.allocId = cs₁.nextAllocId := (hfresh hdiff).1
    constructor
    · rw [hid]
      exact fun hcontra => absurd (hcontra ▸ hlt) (lt_irrefl _)
    · intro hcontra
      have : r₂.imageData.allocId = r₁.imageData.allocId := by rw [hcontra]
      rw [hid] at this
      exact absurd (this ▸ hlt) (lt_irrefl _)

section EvalRatPool

attribute [local semireducible] Rat.mul Rat.inv Rat.add Rat.sub

/-- Witness for C8 on the fresh engine: capturing the demo frame twice
at scale 1/2 returns the pooled buffer with allocation id 0 both times
with the state unchanged, and a third call at scale 1 reallocates,
returning the distinct buffer with allocation id 1. -/
theorem claim_c8_witness :
    Capture.captureImageData
        ({ canvas := some ⟨640, 360⟩, contextPresent := true,
           reusableImageData := some ⟨0, 640, 360⟩, cachedWidth := 640,
           cachedHeight := 360, cachedScale := 1/2, cachedMirror := false,
           mirrorCanvas := none, mirrorContextPresent := false,
           nextAllocId := 1 } : CaptureState) demoVideo { scale := some (1/2) } =
      .ok ({ canvas := some ⟨640, 360⟩, contextPresent := true,
             reusableImageData := some ⟨0, 640, 360⟩, cachedWidth := 640,
             cachedHeight := 360, cachedScale := 1/2, cachedMirror := false,
             mirrorCanvas := none, mirrorContextPresent := false,
             nextAllocId := 1 },
           { imageData := ⟨0, 640, 360⟩, width := 640, height := 360 }) ∧
    ((⟨⟨1, 1280, 720⟩, 1280, 720⟩ : CaptureImageDataResult).imageData.allocId ≠
      (⟨⟨0, 640, 360⟩, 640, 360⟩ : CaptureImageDataResult).imageData.allocId) ∧
    ((⟨⟨1, 1280, 720⟩, 1280, 720⟩ : CaptureImageDataResult).imageData ≠
      (⟨⟨0, 640, 360⟩, 640, 360⟩ : CaptureImageDataResult).imageData) := by
  have hinv : ∀ b, Capture.init.reusableImageData = some b →
      b.allocId < Capture.init.nextAllocId := by
    intro b hb
    simp [Capture.init] at hb
  have hc8 := claim_c8 Capture.init demoVideo { scale := some (1/2) }
    { scale := some 1 } rfl hinv
  have h1 : Capture.captureImageData Capture.init demoVideo
      { scale := some (1/2) } =
      .ok ({ canvas := some ⟨640, 360⟩, contextPresent := true,
             reusableImageData := some ⟨0, 640, 360⟩, cachedWidth := 640,
             cachedHeight := 360, cachedScale := 1/2, cachedMirror := false,
             mirrorCanvas := none, mirrorContextPresent := false,
             nextAllocId := 1 },
           { imageData := ⟨0, 640, 360⟩, width := 640, height := 360 }) := by
    rfl
  have h2 : Capture.captureImageData
      ({ canvas := some ⟨640, 360⟩, contextPresent := true,
         reusableImageData := some ⟨0, 640, 360⟩, cachedWidth := 640,
         cachedHeight := 360, cachedScale := 1/2, cachedMirror := false,
         mirrorCanvas := none, mirrorContextPresent := false,
         nextAllocId := 1 } : CaptureState) demoVideo { scale := some 1 } =
      .ok ({ canvas := some ⟨1280, 720⟩, contextPresent := true,
             reusableImageData := some ⟨1, 1280, 720⟩, cachedWidth := 1280,
             cachedHeight := 720, cachedScale := 1, cachedMirror := false,
             mirrorCanvas := none, mirrorContextPresent := false,
             nextAllocId := 2 },
           { imageData := ⟨1, 1280, 720⟩, width := 1280, height := 720 }) := by
    rfl
  refine ⟨hc8.1 _ _ h1, ?_⟩
  have hB := hc8.2 _ _ _ _ h1 h2 (by left; decide)
  exact hB

end EvalRatPool

/-- The mirror path of `captureImageBitmap` always leaves a mirror
canvas in place when it succeeds. -/
theorem Capture.mirrorBitmapStep_ok_mirrorCanvas {cs : CaptureState}
    {w h : ℤ} {cs' : CaptureState} {r : CaptureImageBitmapResult}
    (hk : Capture.mirrorBitmapStep cs w h = .ok (cs', r)) :
    cs'.mirrorCanvas.isSome = true := by
  unfold Capture.mirrorBitmapStep at hk
  cases hmc : cs.mirrorCanvas with
  | none => simp only [hmc] at hk; cases hk
  | some mc =>
    simp only [hmc] at hk
    split at hk
    · split at hk
      · split at hk
        · cases hk
        · simp only [Except.ok.injEq, Prod.mk.injEq] at hk
          obtain ⟨h1, _⟩ := hk
          subst h1
          rfl
      · cases hk
    · split at hk
      · split at hk
        · cases hk
        · simp only [Except.ok.injEq, Prod.mk.injEq] at hk
          obtain ⟨h1, _⟩ := hk
          subst h1
          simp [hmc]
      · cases hk

section EvalRatDispose

attribute [local semireducible] Rat.mul Rat.inv Rat.add Rat.sub

/-- Claim C9 is false as stated: after `dispose()`, `captureImageBitmap`
on the ready 1280×720 demo frame succeeds — the no-mirror fast path
touches no disposed surface, and the mirror path silently recreates the
disposed mirror surface instead of failing. -/
theorem claim_c9_counterexample :
    runSucceeds (Capture.captureImageBitmap (Capture.dispose Capture.init)
      demoVideo {}) = true ∧
    (Capture.captureImageBitmap (Capture.dispose Capture.init) demoVideo
        { mirror := some true }).toOption.map
      (fun x => x.1.mirrorCanvas.isSome) = some true := by
  exact ⟨rfl, rfl⟩

end EvalRatDispose

/-- Claim C9 as amended: `dispose()` is idempotent — the second call is
a no-op producing no error and stopping no tracks — and leaves no held
stream, no drawing surfaces and no pooled buffer; after `dispose()`,
`captureImageData` and `captureImage` always fail with an error, but
`captureImageBitmap` does not always fail: on a ready video whose
computed target dimensions are both positive it succeeds — its no-mirror
fast path touches no disposed surface and, when mirroring was requested,
it has silently recreated the mirror surface — and it fails only where
it would fail on a live engine too, namely when the platform bitmap
creation rejects the non-positive computed resize dimensions
(`CAPTURE_FAILED`). -/
theorem claim_c9_amended :
    (∀ w : WebcamSession,
      Webcam.dispose ((Webcam.dispose w).1) = ((Webcam.dispose w).1, [])) ∧
    (∀ w : WebcamSession,
      (Webcam.dispose w).1.streamSt.activeStream = none ∧
      (Webcam.dispose w).1.captureSt.canvas = none ∧
      (Webcam.dispose w).1.captureSt.mirrorCanvas = none ∧
      (Webcam.dispose w).1.captureSt.reusableImageData = none) ∧
    (∀ (w : WebcamSession) (video : VideoElement)
        (opts : CaptureImageDataOptions),
      runSucceeds (Capture.captureImageData (Webcam.dispose w).1.captureSt
        video opts) = false) ∧
    (∀ (api : CanvasApi) (w : WebcamSession) (video : VideoElement)
        (opts : CaptureImageOptions),
      runSucceeds (Capture.captureImage api (Webcam.dispose w).1.captureSt
        video opts) = false) ∧
    (∀ (w : WebcamSession) (video : VideoElement)
        (opts : CaptureImageBitmapOptions),
      ¬ video.readyState < 2 →
      0 < ⌊(captureSourceDims video opts.crop).1 * clampScale opts.scale⌋ →
      0 < ⌊(captureSourceDims video opts.crop).2 * clampScale opts.scale⌋ →
      runSucceeds (Capture.captureImageBitmap (Webcam.dispose w).1.captureSt
        video opts) = true) ∧
    (∀ (w : WebcamSession) (video : VideoElement)
        (opts : CaptureImageBitmapOptions) (cs' : CaptureState)
        (r : CaptureImageBitmapResult),
      Capture.captureImageBitmap (Webcam.dispose w).1.captureSt video opts =
        .ok (cs', r) →
      opts.mirror.getD false = true → cs'.mirrorCanvas.isSome = true) ∧
    (∀ (w : WebcamSession) (video : VideoElement)
        (opts : CaptureImageBitmapOptions),
      ¬ video.readyState < 2 →
      opts.mirror.getD false = false →
      (⌊(captureSourceDims video opts.crop).1 * clampScale opts.scale⌋ ≤ 0 ∨
       ⌊(captureSourceDims video opts.crop).2 * clampScale opts.scale⌋ ≤ 0) →
      ∃ e, Capture.captureImageBitmap (Webcam.dispose w).1.captureSt video
        opts = .error e ∧ e.code = some WebcamErrorCode.CAPTURE_FAILED) := by
  refine ⟨?_, ?_, ?_, ?_, ?_, ?_, ?_⟩
  · intro w
    cases hs : w.streamSt.activeStream with
    | none =>
      cases hv : w.videoElement with
      | none =>
        simp [Webcam.dispose, Webcam.stop, Stream.stopStream, Capture.dispose,
          hs, hv]
      | some v =>
        simp [Webcam.dispose, Webcam.stop, Stream.stopStream, Capture.dispose,
          hs, hv]
    | some s =>
      cases hv : w.videoElement with
      | none =>
        simp [Webcam.dispose, Webcam.stop, Stream.stopStream, Capture.dispose,
          hs, hv]
      | some v =>
        simp [Webcam.dispose, Webcam.stop, Stream.stopStream, Capture.dispose,
          hs, hv]
  · intro w
    cases hs : w.streamSt.activeStream <;>
      exact ⟨by simp [Webcam.dispose, Webcam.stop, Stream.stopStream, hs],
        rfl, rfl, rfl⟩
  · intro w video opts
    simp only [Capture.captureImageData]
    by_cases hrdy : video.readyState < 2
    · rw [if_pos hrdy]; rfl
    · rw [if_neg hrdy]
      have hrs : (if (Webcam.dispose w).1.captureSt.cachedWidth ≠
            ⌊(captureSourceDims video opts.crop).1 * clampScale opts.scale⌋ ∨
          (Webcam.dispose w).1.captureSt.cachedHeight ≠
            ⌊(captureSourceDims video opts.crop).2 * clampScale opts.scale⌋ ∨
          (Webcam.dispose w).1.captureSt.cachedScale ≠ clampScale opts.scale then
          Capture.resizeCanvas (Webcam.dispose w).1.captureSt
            ⌊(captureSourceDims video opts.crop).1 * clampScale opts.scale⌋
            ⌊(captureSourceDims video opts.crop).2 * clampScale opts.scale⌋
            (clampScale opts.scale)
        else (Webcam.dispose w).1.captureSt) = (Webcam.dispose w).1.captureSt := by
        split
        · unfold Capture.resizeCanvas
          rfl
        · rfl
      rw [hrs]
      cases hms : Capture.mirrorTransformStep (Webcam.dispose w).1.captureSt
          (opts.mirror.getD false) with
      | error e => simp only [hms]; rfl
      | ok cs₃ =>
        simp only [hms]
        obtain ⟨_, _, hctx, _⟩ := Capture.mirrorTransformStep_ok hms
        simp only [Capture.drawAndReadStep]
        rw [if_neg (by rw [hctx]; exact Bool.false_ne_true)]
        rfl
  · intro api w video opts
    simp only [Capture.captureImage]
    by_cases hrdy : video.readyState < 2
    · rw [if_pos hrdy]; rfl
    · rw [if_neg hrdy]
      have hrs : (if (Webcam.dispose w).1.captureSt.cachedWidth ≠
            ⌊(captureSourceDims video opts.crop).1 * clampScale opts.scale⌋ ∨
          (Webcam.dispose w).1.captureSt.cachedHeight ≠
            ⌊(captureSourceDims video opts.crop).2 * clampScale opts.scale⌋ ∨
          (Webcam.dispose w).1.captureSt.cachedScale ≠ clampScale opts.scale then
          Capture.resizeCanvas (Webcam.dispose w).1.captureSt
            ⌊(captureSourceDims video opts.crop).1 * clampScale opts.scale⌋
            ⌊(captureSourceDims video opts.crop).2 * clampScale opts.scale⌋
            (clampScale opts.scale)
        else (Webcam.dispose w).1.captureSt) = (Webcam.dispose w).1.captureSt := by
        split
        · unfold Capture.resizeCanvas
          rfl
        · rfl
      rw [hrs]
      cases hms : Capture.mirrorTransformStep (Webcam.dispose w).1.captureSt
          (opts.mirror.getD false) with
      | error e => simp only [hms]; rfl
      | ok cs₃ =>
        simp only [hms]
        obtain ⟨_, _, hctx, _⟩ := Capture.mirrorTransformStep_ok hms
        simp only [Capture.drawAndEncodeStep]
        rw [if_neg (by rw [hctx]; exact Bool.false_ne_true)]
        rfl
  · intro w video opts hrdy hw hh
    simp only [Capture.captureImageBitmap]
    rw [if_neg hrdy]
    by_cases hm : opts.mirror.getD false = false
    · rw [if_pos hm]
      split
      · rename_i hnp
        rcases hnp with h | h <;> omega
      · rfl
    · rw [if_neg hm]
      have he : Capture.ensureMirrorCanvas (Webcam.dispose w).1.captureSt =
          { (Webcam.dispose w).1.captureSt with
            mirrorCanvas := some { width := 300, height := 150 },
            mirrorContextPresent := true } := by
        unfold Capture.ensureMirrorCanvas
        rfl
      rw [he]
      simp only [Capture.mirrorBitmapStep]
      split
      · split
        · split
          · rename_i hnp
            rcases hnp with h | h <;> omega
          · rfl
        · rename_i hctx
          exact absurd rfl hctx
      · split
        · split
          · rename_i hnp
            rcases hnp with h | h <;> omega
          · rfl
        · rename_i hctx
          exact absurd rfl hctx
  · intro w video opts cs' r h hm
    simp only [Capture.captureImageBitmap] at h
    split at h
    · cases h
    · split at h
      · rw [hm] at * <;> simp_all
      · exact Capture.mirrorBitmapStep_ok_mirrorCanvas h
  · intro w video opts hrdy hm hnp
    simp only [Capture.captureImageBitmap]
    rw [if_neg hrdy, if_pos hm, if_pos hnp]
    exact ⟨_, rfl, rfl⟩

section EvalRatDisposeWitness

attribute [local semireducible] Rat.mul Rat.inv Rat.add Rat.sub

/-- Witness for the amended C9: disposing a fresh session twice is a
no-op, `captureImageData` on the disposed engine fails,
`captureImageBitmap` on the disposed engine still succeeds at the
1280×720 demo frame (positive target dimensions), and at a 5×5 crop
with scale 0.1 (target dimension `⌊0.5⌋ = 0`) it fails with
`CAPTURE_FAILED`. -/
theorem claim_c9_witness :
    Webcam.dispose ((Webcam.dispose (Webcam.init none)).1) =
      ((Webcam.dispose (Webcam.init none)).1, []) ∧
    runSucceeds (Capture.captureImageData
      (Webcam.dispose (Webcam.init none)).1.captureSt demoVideo {}) = false ∧
    runSucceeds (Capture.captureImageBitmap
      (Webcam.dispose (Webcam.init none)).1.captureSt demoVideo {}) = true ∧
    (∃ e, Capture.captureImageBitmap
      (Webcam.dispose (Webcam.init none)).1.captureSt demoVideo
      { scale := some (1/10), crop := some ⟨0, 0, 5, 5⟩ } = .error e ∧
      e.code = some WebcamErrorCode.CAPTURE_FAILED) := by
  exact ⟨claim_c9_amended.1 (Webcam.init none),
    claim_c9_amended.2.2.1 (Webcam.init none) demoVideo {},
    claim_c9_amended.2.2.2.2.1 (Webcam.init none) demoVideo {} (by decide)
      (by decide) (by decide),
    claim_c9_amended.2.2.2.2.2.2 (Webcam.init none) demoVideo
      { scale := some (1/10), crop := some ⟨0, 0, 5, 5⟩ } (by decide)
      (by decide) (by decide)⟩

end EvalRatDisposeWitness
